import Mathlib

/-!
# krisp-apm relay server (src/src/main.cpp) and Node addon (src/src/addon.cpp)

A shallow embedding of the TCP relay: the two connection counters of `server`, the accept
handler of `server::do_accept`, the constructor and destructor of `session`, the completion
handlers of `session::do_read` and `session::do_write`, `session::process_chunk`, the worker
threads of `main`, the signal handler with its `check_connections` closure, and the argument
handling of `main`; and of the addon: `KrispAudioProcessor::configure` and
`KrispAudioProcessor::processFrames`.

Conventions of the embedding.

* `std::atomic<int>` is a 32-bit two's complement integer: a counter is an `Int` and every
  `++` / `--` goes through `wrap_int`.
* `size_t` arithmetic is taken modulo `2 ^ 64`.
* What the program hands to the outside world (log lines, socket operations, engine calls,
  timer waits) is appended to `State.effects`, in program order.
* A C++ exception leaving a function is the `Outcome.threw` constructor; the state it carries
  is the state at the throw (side effects before the throw are kept).
* The environment is an input: the error code and byte count of a completed operation,
  whether `socket.remote_endpoint()` throws, whether `Nc<int16_t>::create` throws, whether
  `Nc<int16_t>::process` throws.
* In the relay the float suppression level and the model path are passed through to the
  engine unchanged and do not influence control flow; they are not part of `State`. Where a
  float is stored or compared (`main`, the addon) it is represented by its value, a rational
  number; NaN and the infinities are not represented.
* `unsigned int` arithmetic is taken modulo `2 ^ 32`. A loop whose index can wrap takes a
  bound on its iterations and yields `none` when it is still running at the bound.
-/

namespace KrispApm

/-! ## Machine integers and the frame constants (main.cpp 42-47) -/

/-- Largest value of a C++ `int`. -/
def INT_MAX : Int := 2147483647

/-- Smallest value of a C++ `int`. -/
def INT_MIN : Int := -2147483648

/-- Range of a C++ `int`. -/
def is_int (x : Int) : Prop := INT_MIN ≤ x ∧ x ≤ INT_MAX

instance (x : Int) : Decidable (is_int x) := by
  unfold is_int; exact inferInstance

/-- Reduction of a mathematical integer into the range of `int` (two's complement), the
result of arithmetic on `std::atomic<int>`. -/
def wrap_int (x : Int) : Int := (x + 2147483648) % 4294967296 - 2147483648

/-- Pre-increment of a `std::atomic<int>`. -/
def atomic_inc (x : Int) : Int := wrap_int (x + 1)

/-- Pre-decrement of a `std::atomic<int>`. -/
def atomic_dec (x : Int) : Int := wrap_int (x - 1)

/-- Modulus of `size_t` arithmetic. -/
def SIZE_MODULUS : Nat := 18446744073709551616

/-- Constant `sample_rate` (line 44). -/
def sample_rate : Nat := 16000

/-- Constant `samples_per_20ms = sample_rate * 20 / 1000` (line 45). -/
def samples_per_20ms : Nat := (sample_rate * 20 % SIZE_MODULUS) / 1000

/-- Constant `bytes_per_sample = sizeof(int16_t)` (line 46). -/
def bytes_per_sample : Nat := 2

/-- Constant `buffer_size = samples_per_20ms * bytes_per_sample` (line 47); the length of
both `read_buffer_` and `write_buffer_`. -/
def buffer_size : Nat := samples_per_20ms * bytes_per_sample % SIZE_MODULUS

/-! ## Data model -/

/-- The `boost::system::error_code` handed to a completion handler. -/
inductive error_code where
  | success
  | eof
  | failure (message : String)
  deriving DecidableEq, Repr

/-- Text of `ec.message()`. -/
def error_code.message : error_code → String
  | .success => "Success"
  | .eof => "End of file"
  | .failure m => m

/-- Something the program does to the outside world. -/
inductive Effect where
  /-- A line written by `log_info`. -/
  | log_info (msg : String)
  /-- A line written by `log_error`. -/
  | log_error (msg : String)
  /-- The call `socket.close()` on a just accepted socket (line 208). -/
  | socket_close
  /-- The call `async_read(socket_, buffer(read_buffer_), transfer_exactly(bytes), ...)` of
  session `sid`. -/
  | async_read (sid : Nat) (bytes : Nat)
  /-- The call `ncSession_->process(in, numInputSamples, out, numOutputSamples, ...)` of
  session `sid`. -/
  | process (sid : Nat) (numInputSamples : Nat) (numOutputSamples : Nat)
  /-- The call `async_write(socket_, buffer(write_buffer_), ...)` of session `sid`, for a
  buffer of `bytes` bytes. -/
  | async_write (sid : Nat) (bytes : Nat)
  /-- The calls `check_timer->expires_after(seconds(s))` and `check_timer->async_wait(...)`
  whose handler runs `check_connections` again. -/
  | timer_wait (seconds : Nat)
  deriving DecidableEq, Repr

/-- Where a session object is in its life. `reading` and `writing` say which asynchronous
operation is outstanding (its handler holds the `self` pointer); `idle` is the moment inside
a handler when nothing is outstanding; `destroyed` is after `~session`. -/
inductive Phase where
  | reading
  | writing
  | idle
  | destroyed
  deriving DecidableEq, Repr

/-- One `session` object. -/
structure session where
  remoteAddress_ : String
  phase : Phase
  deriving DecidableEq, Repr

/-- State of the process: the members of `server` that the relay logic reads and writes,
every `session` object constructed so far (a session is named by its position in this list),
the effects so far, and the two ways the reactor ends. -/
structure State where
  /-- Member `server::maxConnections_`. -/
  maxConnections_ : Int
  /-- Member `server::activeConnections_`. -/
  activeConnections_ : Int
  /-- Member `server::totalConnections_`. -/
  totalConnections_ : Int
  /-- Value of `acceptor_.is_open()`. -/
  acceptor_open : Bool
  /-- Whether an `async_accept` is outstanding. -/
  accept_pending : Bool
  sessions : List session
  effects : List Effect
  /-- Whether `io_context.stop()` has been called. -/
  stopped : Bool
  /-- Whether `std::terminate` has been called. -/
  terminated : Bool
  deriving DecidableEq, Repr

/-- How a C++ function ends: by returning, or by an exception named `what`. -/
inductive Outcome where
  | returned (s : State)
  | threw (s : State) (what : String)
  deriving DecidableEq, Repr

/-- State at the end of a function, whichever way it ended. -/
def Outcome.state : Outcome → State
  | .returned s => s
  | .threw s _ => s

/-- Function `log_info` (lines 33-36). -/
def log_info (s : State) (msg : String) : State :=
  { s with effects := s.effects ++ [Effect.log_info msg] }

/-- Function `log_error` (lines 37-40). -/
def log_error (s : State) (msg : String) : State :=
  { s with effects := s.effects ++ [Effect.log_error msg] }

/-- Record one effect. -/
def emit (s : State) (e : Effect) : State :=
  { s with effects := s.effects ++ [e] }

/-- Overwrite the phase of session `sid`, if there is such a session. -/
def set_phase (s : State) (sid : Nat) (p : Phase) : State :=
  match s.sessions[sid]? with
  | none => s
  | some sess => { s with sessions := s.sessions.set sid { sess with phase := p } }

/-- Phase of session `sid`; `none` when no such session was ever constructed. -/
def phase_of (s : State) (sid : Nat) : Option Phase :=
  (s.sessions[sid]?).map session.phase

/-- A session object that exists (constructed and not yet destroyed). -/
def session.live (x : session) : Bool :=
  x.phase != Phase.destroyed

/-- Number of session objects that exist. -/
def live_count (s : State) : Nat :=
  (s.sessions.filter session.live).length

/-! ## session (main.cpp 53-156) -/

/-- Constructor `session::session` (lines 55-88), for the session that gets the next free
position. `remote_endpoint` is the peer address, `none` when `socket_.remote_endpoint()`
throws (caught, lines 62-66). `nc_create` is `false` when building the engine handle
(lines 74-87: model path conversion and `Nc<int16_t>::create`) throws; the exception leaves
the constructor after `++connectionCount_`, no object exists and `~session` does not run. -/
def session_ctor (s : State) (remote_endpoint : Option String) (nc_create : Bool) : Outcome :=
  let remoteAddress := match remote_endpoint with
    | some a => a
    | none => "unknown"
  let s1 := { s with activeConnections_ := atomic_inc s.activeConnections_ }
  let s2 := log_info s1 ("New connection accepted from " ++ remoteAddress ++
    " | Active: " ++ toString s1.activeConnections_ ++
    " | Total: " ++ toString s1.totalConnections_)
  if nc_create then
    Outcome.returned { s2 with sessions := s2.sessions ++ [{ remoteAddress_ := remoteAddress, phase := Phase.idle }] }
  else
    Outcome.threw s2 "Nc::create"

/-- Destructor `session::~session` (lines 90-95) of session `sid`. -/
def session_dtor (s : State) (sid : Nat) : State :=
  match s.sessions[sid]? with
  | none => s
  | some sess =>
    let s1 := { s with
      activeConnections_ := atomic_dec s.activeConnections_,
      sessions := s.sessions.set sid { sess with phase := Phase.destroyed } }
    log_info s1 ("Connection closed from " ++ sess.remoteAddress_ ++
      " | Active: " ++ toString s1.activeConnections_ ++
      " | Total: " ++ toString s1.totalConnections_)

/-- Method `session::do_read` (lines 102-119), up to the point where the read is
outstanding. -/
def do_read (s : State) (sid : Nat) : State :=
  emit (set_phase s sid Phase.reading) (Effect.async_read sid buffer_size)

/-- Method `session::start` (lines 97-99). -/
def session_start (s : State) (sid : Nat) : State :=
  do_read s sid

/-- Method `session::do_write` (lines 131-145), up to the point where the write is
outstanding. -/
def do_write (s : State) (sid : Nat) : State :=
  emit (set_phase s sid Phase.writing) (Effect.async_write sid buffer_size)

/-- Method `session::process_chunk` (lines 121-129). `process_ok` is `false` when
`ncSession_->process` throws. -/
def process_chunk (s : State) (sid : Nat) (process_ok : Bool) : Outcome :=
  let s1 := emit s (Effect.process sid samples_per_20ms samples_per_20ms)
  if process_ok then
    Outcome.returned (do_write s1 sid)
  else
    Outcome.threw s1 "Nc::process"

/-- Body of the completion handler of `do_read` (lines 108-116) for session `sid` whose
`remoteAddress_` is `addr`. The second parameter of the lambda, the byte count, has no name
in the source and is not read. -/
def read_handler (s : State) (sid : Nat) (addr : String) (ec : error_code)
    (_bytes_transferred : Nat) (process_ok : Bool) : Outcome :=
  if ec = error_code.success then
    process_chunk s sid process_ok
  else if ec = error_code.eof then
    Outcome.returned (log_info s ("Connection closed gracefully by " ++ addr))
  else
    Outcome.returned (log_error s ("Read error (" ++ addr ++ "): " ++ ec.message))

/-- Body of the completion handler of `do_write` (lines 136-142). -/
def write_handler (s : State) (sid : Nat) (addr : String) (ec : error_code)
    (_bytes_transferred : Nat) : Outcome :=
  if ec = error_code.success then
    Outcome.returned (do_read s sid)
  else
    Outcome.returned (log_error s ("Write error (" ++ addr ++ "): " ++ ec.message))

/-- End of a handler that returned: its copy of `self` is released, and when no operation is
outstanding that was the last owner, so `~session` runs. -/
def release_self (s : State) (sid : Nat) : State :=
  match phase_of s sid with
  | some Phase.idle => session_dtor s sid
  | _ => s

/-- The reactor completes the outstanding read of session `sid`: the operation is no longer
outstanding, its handler runs, and the handler is destroyed. Nothing happens when session
`sid` has no read outstanding. -/
def complete_read (s : State) (sid : Nat) (ec : error_code) (bytes_transferred : Nat)
    (process_ok : Bool) : Outcome :=
  match s.sessions[sid]? with
  | none => Outcome.returned s
  | some sess =>
    if sess.phase = Phase.reading then
      match read_handler (set_phase s sid Phase.idle) sid sess.remoteAddress_ ec
          bytes_transferred process_ok with
      | Outcome.returned s1 => Outcome.returned (release_self s1 sid)
      | Outcome.threw s1 w => Outcome.threw s1 w
    else
      Outcome.returned s

/-- The reactor completes the outstanding write of session `sid`. -/
def complete_write (s : State) (sid : Nat) (ec : error_code) (bytes_transferred : Nat) :
    Outcome :=
  match s.sessions[sid]? with
  | none => Outcome.returned s
  | some sess =>
    if sess.phase = Phase.writing then
      match write_handler (set_phase s sid Phase.idle) sid sess.remoteAddress_ ec
          bytes_transferred with
      | Outcome.returned s1 => Outcome.returned (release_self s1 sid)
      | Outcome.threw s1 w => Outcome.threw s1 w
    else
      Outcome.returned s

/-! ## server (main.cpp 163-229) -/

/-- State right after the constructor `server::server` (lines 165-181) for a limit
`maxConnections`: both counters are 0 and the first `async_accept` is outstanding. -/
def server_init (maxConnections : Int) : State :=
  { maxConnections_ := maxConnections
    activeConnections_ := 0
    totalConnections_ := 0
    acceptor_open := true
    accept_pending := true
    sessions := []
    effects := []
    stopped := false
    terminated := false }

/-- Method `server::get_active_connections` (lines 195-197). -/
def get_active_connections (s : State) : Int :=
  s.activeConnections_

/-- Tail of the accept handler (lines 216-218): accept again while the acceptor is open. -/
def continue_accept (s : State) : State :=
  { s with accept_pending := s.acceptor_open }

/-- Completion handler of `server::do_accept` (lines 202-219). `remote_endpoint` and
`nc_create` are as in `session_ctor`; on the reject path `socket.remote_endpoint()` is not
inside a try block, so its exception leaves the handler before `socket.close()`. -/
def do_accept_handler (s : State) (ec : error_code) (remote_endpoint : Option String)
    (nc_create : Bool) : Outcome :=
  let s0 := { s with accept_pending := false }
  if ec = error_code.success then
    if s0.activeConnections_ ≥ s0.maxConnections_ then
      match remote_endpoint with
      | none => Outcome.threw s0 "remote_endpoint"
      | some addr =>
        let s1 := log_error s0 ("Max connections reached. Rejecting connection from " ++ addr)
        Outcome.returned (continue_accept (emit s1 Effect.socket_close))
    else
      let s1 := { s0 with totalConnections_ := atomic_inc s0.totalConnections_ }
      match session_ctor s1 remote_endpoint nc_create with
      | Outcome.threw s2 w => Outcome.threw s2 w
      | Outcome.returned s2 =>
        Outcome.returned (continue_accept (session_start s2 (s2.sessions.length - 1)))
  else
    Outcome.returned (continue_accept (log_error s0 ("Accept error: " ++ ec.message)))

/-! ## main (main.cpp 237-322) -/

/-- Worker thread of `main` (line 311): the thread function is `io_context.run()` with no try
block, so an exception that leaves a handler leaves the thread function and
`std::terminate` is called. The try block of `main` (lines 263-318) encloses thread creation
and `join`, not the bodies of the threads. -/
def worker (o : Outcome) : State :=
  match o with
  | Outcome.returned s => s
  | Outcome.threw s _ => { s with terminated := true }

/-- Call `io_context.stop()`. -/
def io_context_stop (s : State) : State :=
  { s with stopped := true }

/-- Closure `check_connections` of the signal handler (lines 284-301). `now` is the value of
`std::chrono::steady_clock::now()` read on line 288 and `deadline` is `shutdown_deadline`,
both in ticks of the steady clock. -/
def check_connections (s : State) (now : Int) (deadline : Int) : State :=
  if get_active_connections s = 0 then
    io_context_stop (log_info s "All connections closed. Shutting down gracefully.")
  else if now ≥ deadline then
    io_context_stop (log_info s ("Shutdown timeout reached. Forcing shutdown with " ++
      toString (get_active_connections s) ++ " active connection(s)."))
  else
    emit s (Effect.timer_wait 1)

/-! ## The reactor -/

/-- A completion that the reactor delivers to a worker thread. -/
inductive Event where
  /-- The outstanding `async_accept` completes. -/
  | accept (ec : error_code) (remote_endpoint : Option String) (nc_create : Bool)
  /-- The outstanding `async_read` of session `sid` completes. -/
  | read (sid : Nat) (ec : error_code) (bytes_transferred : Nat) (process_ok : Bool)
  /-- The outstanding `async_write` of session `sid` completes. -/
  | write (sid : Nat) (ec : error_code) (bytes_transferred : Nat)
  deriving DecidableEq, Repr

/-- One handler invocation by a worker thread. No handler runs once the reactor is stopped or
the process is terminated, and an accept completion needs an outstanding accept. -/
def step (s : State) (e : Event) : State :=
  if s.terminated || s.stopped then s
  else
    match e with
    | Event.accept ec r n =>
      if s.accept_pending then worker (do_accept_handler s ec r n) else s
    | Event.read sid ec b p => worker (complete_read s sid ec b p)
    | Event.write sid ec b => worker (complete_write s sid ec b)

/-- Handler invocations one after the other. -/
def run (s : State) (es : List Event) : State :=
  es.foldl step s

/-! ## Predicates on runs -/

/-- What holds of every state the reactor reaches from `server_init M` by accept, read and
write completions: the limit and the acceptor are untouched, the active counter is between 0
and the limit, the total counter is a C++ int, and while no exception has left a handler the
active counter is the number of session objects that exist, the next accept is outstanding and
the total counter is the number of sessions constructed so far, reduced to 32 bits. -/
def Inv (M : Int) (s : State) : Prop :=
  s.maxConnections_ = M ∧ s.acceptor_open = true ∧ s.stopped = false ∧
  0 ≤ s.activeConnections_ ∧ (s.activeConnections_ ≤ M ∨ s.activeConnections_ = 0) ∧
  is_int s.totalConnections_ ∧
  (s.terminated = false →
    s.activeConnections_ = (live_count s : Int) ∧ s.accept_pending = true ∧
    s.totalConnections_ = wrap_int (s.sessions.length : Int))

instance (M : Int) (s : State) : Decidable (Inv M s) := by
  unfold Inv; exact inferInstance

/-- Whether event `e`, delivered in state `s`, is an accept completion that passes the
admission check of line 205 (the connection is admitted). -/
def is_admitted (s : State) (e : Event) : Bool :=
  match e with
  | Event.accept ec _ _ =>
    !s.terminated && !s.stopped && s.accept_pending && decide (ec = error_code.success) &&
      decide (s.activeConnections_ < s.maxConnections_)
  | _ => false

/-- Number of admitted connections along a run that starts in `s`. -/
def admitted_count (s : State) : List Event → Nat
  | [] => 0
  | e :: es => (if is_admitted s e then 1 else 0) + admitted_count (step s e) es

/-- Whether event `e`, delivered in state `s`, ends a session: an end of stream or an error
on the outstanding read, or an error on the outstanding write. -/
def closes (s : State) (e : Event) : Bool :=
  match e with
  | Event.read sid ec _ _ =>
    decide (phase_of s sid = some Phase.reading) && decide (ec ≠ error_code.success)
  | Event.write sid ec _ =>
    decide (phase_of s sid = some Phase.writing) && decide (ec ≠ error_code.success)
  | Event.accept _ _ _ => false

/-- Whether `e` is a terminating completion addressed to session `sid`: an end of stream or an
error on a read, or an error on a write. -/
def is_terminating_for (sid : Nat) (e : Event) : Bool :=
  match e with
  | Event.read i ec _ _ => decide (i = sid) && decide (ec ≠ error_code.success)
  | Event.write i ec _ => decide (i = sid) && decide (ec ≠ error_code.success)
  | Event.accept _ _ _ => false

/-- One connection that is accepted as session `sid` and at once closed by its peer. -/
def one_cycle (sid : Nat) : List Event :=
  [Event.accept error_code.success (some "10.0.0.1") true,
   Event.read sid error_code.eof 0 true]

/-- The first `k` connections of a client that connects and disconnects over and over. -/
def cycles : Nat → List Event
  | 0 => []
  | k + 1 => cycles k ++ one_cycle k

/-! ## The signal handler of main (main.cpp 274-303) -/

/-- The error code `boost::asio::error::operation_aborted`, with which a cancelled
operation completes. -/
def operation_aborted : error_code :=
  error_code.failure "Operation canceled"

/-- Ticks of `std::chrono::steady_clock` in one second (the clock counts nanoseconds). -/
def ticks_per_second : Int := 1000000000

/-- Method `server::shutdown` (lines 184-192). `close_ec` is the error code that
`acceptor_.close(ec)` reports. -/
def server_shutdown (s : State) (close_ec : error_code) : State :=
  let s1 := { s with acceptor_open := false }
  if close_ec ≠ error_code.success then
    log_error s1 ("Error closing acceptor: " ++ close_ec.message)
  else
    log_info s1 "Acceptor closed. No longer accepting new connections."

/-- The shutdown coordinator after the signal handler has run: the process state, the value
of `shutdown_deadline`, whether the `steady_timer` behind `check_timer` still exists, and the
error code with which the outstanding `async_wait` on it will complete (`none` when no wait
is outstanding). -/
structure Drain where
  state : State
  deadline : Int
  timer_alive : Bool
  wait : Option error_code
  deriving DecidableEq, Repr

/-- Handler of `signals.async_wait` (lines 274-303) for signal `signo`. `t0` is the clock
value read on line 279, `t1` the clock value read by the first check (line 288), and
`shutdownTimeoutSec` the configured timeout.

The handler logs, closes the acceptor, computes the deadline, creates the timer, defines
`check_connections` and calls it once, then returns. On return its locals are destroyed, in
reverse order of declaration: the `std::function` `check_connections`, whose closure holds
the copy of the `shared_ptr` `check_timer` captured on line 284, and then `check_timer`
itself. These are the only two owners of the timer (the wait handler of line 295 captures by
reference only), so the timer is destroyed here, and destroying a `steady_timer` cancels its
outstanding wait: the wait that the first check may have started completes with
`operation_aborted`. -/
def signal_handler (s : State) (signo : Int) (close_ec : error_code) (t0 : Int)
    (shutdownTimeoutSec : Int) (t1 : Int) : Drain :=
  let s1 := log_info s ("Shutdown signal (" ++ toString signo ++
    ") received. Initiating graceful shutdown...")
  let s2 := server_shutdown s1 close_ec
  let shutdown_deadline := t0 + shutdownTimeoutSec * ticks_per_second
  let s3 := check_connections s2 t1 shutdown_deadline
  let waiting : Bool := decide (s3.effects = s2.effects ++ [Effect.timer_wait 1])
  { state := s3
    deadline := shutdown_deadline
    timer_alive := false
    wait := if waiting then some operation_aborted else none }

/-- Handler of `check_timer->async_wait` (lines 295-299), run when the outstanding wait
completes at clock value `now`: `if (!ec) check_connections();`. A check that reschedules
starts a new wait, which will expire normally only if the timer exists. No handler runs once
the reactor is stopped or the process is terminated, or when no wait is outstanding. -/
def timer_handler (d : Drain) (now : Int) : Drain :=
  match d.wait with
  | none => d
  | some ec =>
    if d.state.stopped || d.state.terminated then d
    else if ec = error_code.success then
      let s1 := check_connections d.state now d.deadline
      let waiting : Bool := decide (s1.effects = d.state.effects ++ [Effect.timer_wait 1])
      { d with
        state := s1
        wait := if waiting then
            some (if d.timer_alive then error_code.success else operation_aborted)
          else none }
    else
      { d with wait := none }

/-- The reactor after the signal: the outstanding wait is completed at each of the clock
values `times`, in turn. -/
def drain (d : Drain) (times : List Int) : Drain :=
  times.foldl timer_handler d

/-! ## The order of the operations of one session -/

/-- The three operations of a session's cycle. -/
inductive Op where
  | read
  | process
  | write
  deriving DecidableEq, Repr

/-- The operation of session `sid` that an effect is, if it is one. -/
def op_of (sid : Nat) : Effect → Option Op
  | Effect.async_read i _ => if i = sid then some Op.read else none
  | Effect.process i _ _ => if i = sid then some Op.process else none
  | Effect.async_write i _ => if i = sid then some Op.write else none
  | _ => none

/-- The operations of session `sid` among the effects, in program order. -/
def session_ops (sid : Nat) (fx : List Effect) : List Op :=
  fx.filterMap (op_of sid)

/-- The operation at position `i` of the sequence read, process, write, read, process,
write, ... -/
def nth_op (i : Nat) : Op :=
  if i % 3 = 0 then Op.read else if i % 3 = 1 then Op.process else Op.write

/-- What one step does to the operations and to the phase of session `sid`: nothing to the
operations (the phase stays, or the session is destroyed), or one of the four moves of the
cycle, each tied to the one event that causes it. -/
def StepMove (s : State) (e : Event) (sid : Nat) : Prop :=
  (session_ops sid (step s e).effects = session_ops sid s.effects ∧
    (phase_of (step s e) sid = phase_of s sid ∨
      (phase_of (step s e) sid = some Phase.destroyed ∧
        (phase_of s sid = some Phase.reading ∨ phase_of s sid = some Phase.writing)))) ∨
  (session_ops sid (step s e).effects = session_ops sid s.effects ++ [Op.read] ∧
    phase_of (step s e) sid = some Phase.reading ∧ phase_of s sid = none ∧
    ∃ r, e = Event.accept error_code.success r true) ∨
  (session_ops sid (step s e).effects = session_ops sid s.effects ++ [Op.process, Op.write] ∧
    phase_of (step s e) sid = some Phase.writing ∧ phase_of s sid = some Phase.reading ∧
    ∃ b, e = Event.read sid error_code.success b true) ∨
  (session_ops sid (step s e).effects = session_ops sid s.effects ++ [Op.process] ∧
    phase_of (step s e) sid = some Phase.idle ∧ phase_of s sid = some Phase.reading ∧
    (step s e).terminated = true ∧
    ∃ b, e = Event.read sid error_code.success b false) ∨
  (session_ops sid (step s e).effects = session_ops sid s.effects ++ [Op.read] ∧
    phase_of (step s e) sid = some Phase.reading ∧ phase_of s sid = some Phase.writing ∧
    ∃ b, e = Event.write sid error_code.success b)

/-- The operations `ops` are, position by position, the sequence read, process, write, read,
process, write, ... -/
def ops_in_order (ops : List Op) : Prop :=
  ∀ i o, ops[i]? = some o → o = nth_op i

/-- How the phase of a session goes with the number `n` of operations it has issued: none for
a session that does not exist; the last one is a read (n = 3k + 1) while a read is
outstanding; the last one is a write (n = 3k + 3) while a write is outstanding; the last one
is the engine call (n = 3k + 2) for a session left inside a handler; a destroyed session
ended on a read or on a write. -/
def phase_fits : Option Phase → Nat → Prop
  | none, n => n = 0
  | some Phase.reading, n => n % 3 = 1
  | some Phase.writing, n => n % 3 = 0 ∧ 0 < n
  | some Phase.idle, n => n % 3 = 2
  | some Phase.destroyed, n => n % 3 = 1 ∨ (n % 3 = 0 ∧ 0 < n)

/-- The operations of session `sid` so far are in order and their number goes with its
phase. -/
def OrdInv (s : State) (sid : Nat) : Prop :=
  ops_in_order (session_ops sid s.effects) ∧
  phase_fits (phase_of s sid) (session_ops sid s.effects).length

/-! ## main: arguments, thread pool and exit (main.cpp 237-322) -/

/-- Conversion of an `int` to `short` (16 bits, two's complement), as in line 248. -/
def wrap_short (x : Int) : Int := (x + 32768) % 65536 - 32768

/-- The values that `main` computes from its arguments and hands to the server
(line 270) and to the signal handler (line 274). A float is represented by its value. -/
structure Config where
  port : Int
  model_path : String
  noiseSuppressionLevel : ℚ
  maxConnections : Int
  shutdownTimeoutSec : Int
  deriving DecidableEq, Repr

/-- What happens inside the try block of `main` (lines 263-318). -/
inductive RunOutcome where
  /-- Every worker thread returned from `io_context.run()` and was joined. -/
  | joined
  /-- `globalInit` or the constructor of `server` threw; caught on line 316. -/
  | init_failed (what : String)
  /-- An exception left a worker thread, so `std::terminate` was called. -/
  | terminated
  deriving DecidableEq, Repr

/-- How the process ends: `main` returns a code, or `std::terminate` is called. -/
inductive Exit where
  | returned (code : Int)
  | terminate
  deriving DecidableEq, Repr

/-- Result of `main`: how the process ended, the configuration with which the server ran
(`none` when no server ran), and what `main` itself wrote to the error stream. -/
structure MainResult where
  exit : Exit
  server : Option Config
  messages : List String
  deriving DecidableEq, Repr

/-- The usage line of line 240. -/
def usage_message : String :=
  "Usage: apm-krisp-nc <port> <model_path> [noise_suppression_level] [max_connections] [shutdown_timeout_sec]\n"

/-- Function `main` (lines 237-322) on the argument vector `argv` (program name first, so
`argc` is its length). The library functions are parameters: `atoi` is `std::atoi`, `stof` is
`std::stof` with `none` when it throws (`std::invalid_argument`, `std::out_of_range`). `run`
is what happens inside the try block and `destroy_ok` is `false` when `globalDestroy`
throws. The calls of `std::stof` (line 252) and of `globalDestroy` (line 320) are outside
the try block, so their exceptions leave `main` and `std::terminate` is called. -/
def main (atoi : String → Int) (stof : String → Option ℚ) (run : RunOutcome)
    (destroy_ok : Bool) (argv : List String) : MainResult :=
  let argc := argv.length
  if argc < 3 then
    { exit := Exit.returned 1, server := none, messages := [usage_message] }
  else
    let port := wrap_short (atoi (argv.getD 1 ""))
    let model_path := argv.getD 2 ""
    let parsed_level := if argc ≥ 4 then stof (argv.getD 3 "") else some 100
    match parsed_level with
    | none => { exit := Exit.terminate, server := none, messages := [] }
    | some noiseSuppressionLevel =>
      let maxConnections := if argc ≥ 5 then atoi (argv.getD 4 "") else 10
      let shutdownTimeoutSec := if argc ≥ 6 then atoi (argv.getD 5 "") else 120
      let cfg : Config :=
        { port := port
          model_path := model_path
          noiseSuppressionLevel := noiseSuppressionLevel
          maxConnections := maxConnections
          shutdownTimeoutSec := shutdownTimeoutSec }
      match run with
      | RunOutcome.terminated =>
        { exit := Exit.terminate, server := some cfg, messages := [] }
      | RunOutcome.init_failed what =>
        { exit := if destroy_ok then Exit.returned 0 else Exit.terminate
          server := none
          messages := ["Exception in main: " ++ what] }
      | RunOutcome.joined =>
        { exit := if destroy_ok then Exit.returned 0 else Exit.terminate
          server := some cfg
          messages := [] }

/-- Lines 307-309: the number of threads to start, from the value of
`std::thread::hardware_concurrency()`. -/
def thread_count (hardware_concurrency : Nat) : Nat :=
  if hardware_concurrency = 0 then 2 else hardware_concurrency

/-- Loop of lines 310-312, from index `i` with `started` threads already started: the number
of threads in the vector when the loop ends. The index stays below `thread_count`, an
`unsigned int`, so `++i` does not wrap. -/
def start_threads (thread_count : Nat) (i : Nat) (started : Nat) : Nat :=
  if i < thread_count then start_threads thread_count (i + 1) (started + 1) else started
termination_by thread_count - i

/-- Number of worker threads that `main` starts when `hardware_concurrency()` is `h`. -/
def worker_threads (h : Nat) : Nat :=
  start_threads (thread_count h) 0 0

/-- Value of a string of decimal digits; `none` for the empty string and for a string with
any other character. -/
def numeral_value (cs : List Char) : Option Nat :=
  if cs = [] then none
  else cs.foldl (fun acc c =>
    match acc with
    | none => none
    | some n => if c.isDigit then some (n * 10 + (c.toNat - 48)) else none) (some 0)

/-- A library instance for the closed statements below: `std::atoi` on the strings it is
given there, which are decimal numerals without sign (their value). -/
def atoi_digits (s : String) : Int :=
  match numeral_value s.data with
  | some n => (n : Int)
  | none => 0

/-- A library instance for the closed statements below: `std::stof` on the strings it is given
there, which are decimal numerals without sign (their value) and a word without any digit
(no conversion, `std::invalid_argument`). -/
def stof_digits (s : String) : Option ℚ :=
  match numeral_value s.data with
  | some n => some (n : ℚ)
  | none => none

/-! ## The Node addon (src/src/addon.cpp) -/

/-- Modulus of `unsigned int` arithmetic. -/
def UINT_MODULUS : Nat := 4294967296

/-- An argument that JavaScript passes to a method of the addon. A number is given by what
its two accessors return, `Uint32Value()` and `FloatValue()` (a float is represented by its
value); a buffer by its length in bytes. -/
inductive JsValue where
  | string (s : String)
  | number (Uint32Value : Nat) (FloatValue : ℚ)
  | buffer (length : Nat)
  | other
  deriving DecidableEq, Repr

/-- Method `IsString`. -/
def JsValue.IsString : JsValue → Bool
  | JsValue.string _ => true
  | _ => false

/-- Method `IsNumber`. -/
def JsValue.IsNumber : JsValue → Bool
  | JsValue.number _ _ => true
  | _ => false

/-- Method `IsBuffer`. -/
def JsValue.IsBuffer : JsValue → Bool
  | JsValue.buffer _ => true
  | _ => false

/-- What a method of the addon hands back to JavaScript: `env.Undefined()`, or `env.Null()`
with a pending JavaScript exception. -/
inductive JsResult where
  | undefined
  | exception (message : String)
  deriving DecidableEq, Repr

/-- An engine session, named by the configuration it was created with. -/
structure NcHandle where
  sampleRate : Nat
  frameDuration : Nat
  modelPath : String
  deriving DecidableEq, Repr

/-- The members of `KrispAudioProcessor` (lines 55-59). -/
structure KrispAudioProcessor where
  m_krispSampleRate : Nat
  m_frameSize : Nat
  m_ncSession : Option NcHandle
  m_noiseSuppressionLevel : ℚ
  m_frameSizeInBytes : Nat
  deriving DecidableEq, Repr

/-- A processor right after construction (default member initialisers, lines 55-59). -/
def processor_new : KrispAudioProcessor :=
  { m_krispSampleRate := 0
    m_frameSize := 0
    m_ncSession := none
    m_noiseSuppressionLevel := 100
    m_frameSizeInBytes := 0 }

/-- Function `getKrispSamplingRate` (lines 62-78): the enumerator's value and whether the
rate is supported. -/
def getKrispSamplingRate (rate : Nat) : Nat × Bool :=
  if rate = 8000 then (8000, true)
  else if rate = 16000 then (16000, true)
  else (0, false)

/-- What `Nc<SampleType>::create` (with the model path conversion before it, lines 124-131)
does: throw, return a null pointer, or return a session. -/
inductive CreateResult where
  | threw (what : String)
  | null
  | ok
  deriving DecidableEq, Repr

/-- Value of `FrameDuration::Fd10ms`. -/
def Fd10ms : Nat := 10

/-- Method `KrispAudioProcessor<SampleType>::configure` (lines 81-146), with
`sample_size = sizeof(SampleType)`. Returns the processor after the call and what JavaScript
gets. `m_frameSize` is computed in `unsigned int`, `m_frameSizeInBytes` in `size_t`. -/
def configure (sample_size : Nat) (p : KrispAudioProcessor) (info : List JsValue)
    (create : CreateResult) : KrispAudioProcessor × JsResult :=
  if info.length ≠ 3 then
    (p, JsResult.exception
      "Expected 3 arguments: modelPath, sampleRate, and noiseSuppressionLevel")
  else if !(info.getD 0 JsValue.other).IsString then
    (p, JsResult.exception "Wrong argument type for modelPath. Expected: String")
  else if !(info.getD 1 JsValue.other).IsNumber then
    (p, JsResult.exception "Wrong argument type for sampleRate. Expected: Number")
  else if !(info.getD 2 JsValue.other).IsNumber then
    (p, JsResult.exception "Wrong argument type for noiseSuppressionLevel. Expected: Number")
  else
    match info.getD 0 JsValue.other, info.getD 1 JsValue.other, info.getD 2 JsValue.other with
    | JsValue.string modelPath, JsValue.number sampleRate _, JsValue.number _ level =>
      if modelPath = "" then
        (p, JsResult.exception "Model path cannot be empty")
      else
        let p1 := { p with m_noiseSuppressionLevel := level }
        if p1.m_noiseSuppressionLevel < 0 ∨ p1.m_noiseSuppressionLevel > 100 then
          (p1, JsResult.exception "Noise suppression level must be between 0 and 100")
        else
          let samplingRateResult := getKrispSamplingRate sampleRate
          if !samplingRateResult.2 then
            (p1, JsResult.exception
              "Unsupported sample rate. Only 8000Hz and 16000Hz are supported.")
          else
            let frameSize := (samplingRateResult.1 * Fd10ms % UINT_MODULUS) / 1000
            let p2 := { p1 with
              m_krispSampleRate := samplingRateResult.1
              m_frameSize := frameSize
              m_frameSizeInBytes := frameSize * sample_size % SIZE_MODULUS }
            match create with
            | CreateResult.threw what => (p2, JsResult.exception what)
            | CreateResult.null =>
              ({ p2 with m_ncSession := none },
                JsResult.exception "Failed to create Krisp NC session")
            | CreateResult.ok =>
              let handle : NcHandle :=
                { sampleRate := samplingRateResult.1
                  frameDuration := Fd10ms
                  modelPath := modelPath }
              ({ p2 with m_ncSession := some handle }, JsResult.undefined)
    | _, _, _ => (p, JsResult.exception "Unknown error during configuration")

/-- One call `m_ncSession->process(in + offset, numInputSamples, out + offset,
numOutputSamples, level, nullptr)` of `processFrames` (lines 184-191); `offset` counts
samples from the start of both buffers. -/
structure EngineCall where
  offset : Nat
  numInputSamples : Nat
  numOutputSamples : Nat
  level : ℚ
  deriving DecidableEq, Repr

/-- Whether the samples that a call reads and writes lie inside buffers of `numSamples`
samples. -/
def EngineCall.in_bounds (c : EngineCall) (numSamples : Nat) : Bool :=
  decide (c.offset + c.numInputSamples ≤ numSamples) &&
    decide (c.offset + c.numOutputSamples ≤ numSamples)

/-- Loop of `processFrames` (lines 183-192) from index `i`, an `unsigned int`, with the
calls made so far. `process_ok offset` is `false` when the engine throws on the call at that
offset. `fuel` bounds the number of iterations: `none` means the loop is still running after
`fuel` iterations. -/
def process_loop (p : KrispAudioProcessor) (numSamples : Nat) (process_ok : Nat → Bool) :
    Nat → Nat → List EngineCall → Option (JsResult × List EngineCall)
  | 0, _, _ => none
  | fuel + 1, i, calls =>
    if i < numSamples then
      let call : EngineCall :=
        { offset := i
          numInputSamples := p.m_frameSize
          numOutputSamples := p.m_frameSize
          level := p.m_noiseSuppressionLevel }
      if process_ok i then
        process_loop p numSamples process_ok fuel ((i + p.m_frameSize) % UINT_MODULUS)
          (calls ++ [call])
      else
        some (JsResult.exception "Nc::process", calls ++ [call])
    else
      some (JsResult.undefined, calls)

/-- Method `KrispAudioProcessor<SampleType>::processFrames` (lines 149-204), with
`sample_size = sizeof(SampleType)`: what JavaScript gets and the engine calls made, or `none`
when the loop is still running after `fuel` iterations. The method assigns no member, and
the output buffer is written by the engine calls only. -/
def processFrames (sample_size : Nat) (fuel : Nat) (p : KrispAudioProcessor)
    (info : List JsValue) (process_ok : Nat → Bool) : Option (JsResult × List EngineCall) :=
  if p.m_ncSession = none then
    some (JsResult.exception "Krisp NC session not configured. Call configure first.", [])
  else if info.length ≠ 2 then
    some (JsResult.exception "Expected 2 arguments: inputBuffer and outputBuffer", [])
  else
    match info.getD 0 JsValue.other, info.getD 1 JsValue.other with
    | JsValue.buffer inputLength, JsValue.buffer outputLength =>
      if inputLength ≠ outputLength then
        some (JsResult.exception "Input and output buffers must have the same length", [])
      else if inputLength % sample_size ≠ 0 then
        some (JsResult.exception "Buffer length must be a multiple of sample size", [])
      else if inputLength < p.m_frameSizeInBytes then
        some (JsResult.exception "Input buffer too small for one frame", [])
      else
        process_loop p (inputLength / sample_size) process_ok fuel 0 []
    | _, _ => some (JsResult.exception "Both arguments must be Buffer objects", [])

/-- A 16-bit processor configured for 16 kHz with suppression level 50. -/
def processor_16k : KrispAudioProcessor :=
  (configure 2 processor_new
    [JsValue.string "model.kef", JsValue.number 16000 16000, JsValue.number 50 50]
    CreateResult.ok).1

/-! ## Concrete states used by the closed statements below -/

/-- A server with limit 10 and no connection whose total counter holds `INT_MAX`. -/
def state_total_at_max : State :=
  { server_init 10 with totalConnections_ := 2147483647 }

/-- A server with limit 1, one open session that waits for a frame, and the limit reached. -/
def state_full : State :=
  { server_init 1 with
    activeConnections_ := 1
    totalConnections_ := 1
    sessions := [{ remoteAddress_ := "10.0.0.1", phase := Phase.reading }] }

/-- A server with limit 10 and one open session that has a write outstanding. -/
def state_writing : State :=
  { server_init 10 with
    activeConnections_ := 1
    totalConnections_ := 1
    sessions := [{ remoteAddress_ := "10.0.0.1", phase := Phase.writing }] }

/-- A server with limit 10 and two open sessions that both wait for a frame. -/
def state_two_sessions : State :=
  { server_init 10 with
    activeConnections_ := 2
    totalConnections_ := 2
    sessions := [{ remoteAddress_ := "10.0.0.1", phase := Phase.reading },
                 { remoteAddress_ := "10.0.0.2", phase := Phase.reading }] }

/-! ## Arithmetic of the counters -/

theorem wrap_int_of_is_int (x : Int) (h : is_int x) : wrap_int x = x := by
  unfold is_int INT_MIN INT_MAX at h
  unfold wrap_int
  omega

theorem is_int_wrap_int (x : Int) : is_int (wrap_int x) := by
  unfold is_int INT_MIN INT_MAX wrap_int
  omega

theorem atomic_inc_eq (x : Int) (h : is_int x) (hx : x < INT_MAX) : atomic_inc x = x + 1 := by
  unfold is_int INT_MIN INT_MAX at h
  unfold INT_MAX at hx
  unfold atomic_inc wrap_int
  omega

theorem atomic_dec_eq (x : Int) (h : is_int x) (hx : INT_MIN < x) : atomic_dec x = x - 1 := by
  unfold is_int INT_MIN INT_MAX at h
  unfold INT_MIN at hx
  unfold atomic_dec wrap_int
  omega

theorem atomic_inc_at_max : atomic_inc INT_MAX = INT_MIN := by
  unfold atomic_inc wrap_int INT_MAX INT_MIN
  norm_num

/-! ## Lists of sessions -/

theorem getElem?_snoc_length {α : Type} (l : List α) (x : α) :
    (l ++ [x])[l.length]? = some x := by
  simp

theorem set_snoc_length {α : Type} (l : List α) (x y : α) :
    (l ++ [x]).set l.length y = l ++ [y] := by
  induction l with
  | nil => rfl
  | cons a t ih => simp [ih]

theorem length_filter_set {α : Type} (p : α → Bool) (l : List α) (i : Nat) (x y : α)
    (h : l[i]? = some x) :
    ((l.set i y).filter p).length + (if p x then 1 else 0)
      = (l.filter p).length + (if p y then 1 else 0) := by
  induction l generalizing i with
  | nil => simp at h
  | cons a t ih =>
    cases i with
    | zero =>
      simp at h
      subst h
      simp only [List.set_cons_zero, List.filter_cons]
      by_cases ha : p a <;> by_cases hy : p y <;> simp [ha, hy]
    | succ j =>
      simp at h
      have := ih j h
      simp only [List.set_cons_succ, List.filter_cons]
      by_cases ha : p a <;> simp [ha] <;> omega

theorem lt_length_of_getElem? {α : Type} (l : List α) (i : Nat) (x : α)
    (h : l[i]? = some x) : i < l.length := by
  rcases List.getElem?_eq_some_iff.mp h with ⟨hl, _⟩
  exact hl

/-! ## What each completion does to the state -/

theorem complete_read_none (s : State) (sid : Nat) (ec : error_code) (b : Nat) (p : Bool)
    (h : s.sessions[sid]? = none) :
    complete_read s sid ec b p = Outcome.returned s := by
  simp [complete_read, h]

theorem complete_read_not_reading (s : State) (sid : Nat) (sess : session) (ec : error_code)
    (b : Nat) (p : Bool) (h : s.sessions[sid]? = some sess) (hp : sess.phase ≠ Phase.reading) :
    complete_read s sid ec b p = Outcome.returned s := by
  simp [complete_read, h, hp]

theorem complete_read_success (s : State) (sid : Nat) (sess : session) (b : Nat)
    (h : s.sessions[sid]? = some sess) (hp : sess.phase = Phase.reading) :
    complete_read s sid error_code.success b true = Outcome.returned
      { s with
        sessions := s.sessions.set sid { sess with phase := Phase.writing }
        effects := s.effects ++
          [Effect.process sid samples_per_20ms samples_per_20ms,
           Effect.async_write sid buffer_size] } := by
  have hlt := lt_length_of_getElem? _ _ _ h
  simp [complete_read, h, hp, read_handler, set_phase, release_self, phase_of, process_chunk,
    do_write, emit, hlt]

theorem complete_read_process_throws (s : State) (sid : Nat) (sess : session) (b : Nat)
    (h : s.sessions[sid]? = some sess) (hp : sess.phase = Phase.reading) :
    complete_read s sid error_code.success b false = Outcome.threw
      { s with
        sessions := s.sessions.set sid { sess with phase := Phase.idle }
        effects := s.effects ++ [Effect.process sid samples_per_20ms samples_per_20ms] }
      "Nc::process" := by
  simp [complete_read, h, hp, read_handler, set_phase, process_chunk, emit]

theorem complete_read_eof (s : State) (sid : Nat) (sess : session) (b : Nat) (p : Bool)
    (h : s.sessions[sid]? = some sess) (hp : sess.phase = Phase.reading) :
    complete_read s sid error_code.eof b p = Outcome.returned
      { s with
        activeConnections_ := atomic_dec s.activeConnections_
        sessions := s.sessions.set sid { sess with phase := Phase.destroyed }
        effects := s.effects ++
          [Effect.log_info ("Connection closed gracefully by " ++ sess.remoteAddress_),
           Effect.log_info ("Connection closed from " ++ sess.remoteAddress_ ++
             " | Active: " ++ toString (atomic_dec s.activeConnections_) ++
             " | Total: " ++ toString s.totalConnections_)] } := by
  have hlt := lt_length_of_getElem? _ _ _ h
  simp [complete_read, h, hp, read_handler, set_phase, log_info, release_self, phase_of,
    session_dtor, hlt]

theorem complete_read_failure (s : State) (sid : Nat) (sess : session) (m : String) (b : Nat)
    (p : Bool) (h : s.sessions[sid]? = some sess) (hp : sess.phase = Phase.reading) :
    complete_read s sid (error_code.failure m) b p = Outcome.returned
      { s with
        activeConnections_ := atomic_dec s.activeConnections_
        sessions := s.sessions.set sid { sess with phase := Phase.destroyed }
        effects := s.effects ++
          [Effect.log_error ("Read error (" ++ sess.remoteAddress_ ++ "): " ++ m),
           Effect.log_info ("Connection closed from " ++ sess.remoteAddress_ ++
             " | Active: " ++ toString (atomic_dec s.activeConnections_) ++
             " | Total: " ++ toString s.totalConnections_)] } := by
  have hlt := lt_length_of_getElem? _ _ _ h
  simp [complete_read, h, hp, read_handler, set_phase, log_info, log_error, release_self,
    phase_of, session_dtor, hlt, error_code.message]

theorem complete_write_none (s : State) (sid : Nat) (ec : error_code) (b : Nat)
    (h : s.sessions[sid]? = none) :
    complete_write s sid ec b = Outcome.returned s := by
  simp [complete_write, h]

theorem complete_write_not_writing (s : State) (sid : Nat) (sess : session) (ec : error_code)
    (b : Nat) (h : s.sessions[sid]? = some sess) (hp : sess.phase ≠ Phase.writing) :
    complete_write s sid ec b = Outcome.returned s := by
  simp [complete_write, h, hp]

theorem complete_write_success (s : State) (sid : Nat) (sess : session) (b : Nat)
    (h : s.sessions[sid]? = some sess) (hp : sess.phase = Phase.writing) :
    complete_write s sid error_code.success b = Outcome.returned
      { s with
        sessions := s.sessions.set sid { sess with phase := Phase.reading }
        effects := s.effects ++ [Effect.async_read sid buffer_size] } := by
  have hlt := lt_length_of_getElem? _ _ _ h
  simp [complete_write, h, hp, write_handler, set_phase, release_self, phase_of, do_read,
    emit, hlt]

theorem complete_write_error (s : State) (sid : Nat) (sess : session) (ec : error_code)
    (b : Nat) (h : s.sessions[sid]? = some sess) (hp : sess.phase = Phase.writing)
    (hec : ec ≠ error_code.success) :
    complete_write s sid ec b = Outcome.returned
      { s with
        activeConnections_ := atomic_dec s.activeConnections_
        sessions := s.sessions.set sid { sess with phase := Phase.destroyed }
        effects := s.effects ++
          [Effect.log_error ("Write error (" ++ sess.remoteAddress_ ++ "): " ++ ec.message),
           Effect.log_info ("Connection closed from " ++ sess.remoteAddress_ ++
             " | Active: " ++ toString (atomic_dec s.activeConnections_) ++
             " | Total: " ++ toString s.totalConnections_)] } := by
  have hlt := lt_length_of_getElem? _ _ _ h
  simp [complete_write, h, hp, hec, write_handler, set_phase, log_error, log_info,
    release_self, phase_of, session_dtor, hlt]

theorem accept_rejected (s : State) (addr : String) (n : Bool)
    (h : s.activeConnections_ ≥ s.maxConnections_) :
    do_accept_handler s error_code.success (some addr) n = Outcome.returned
      { s with
        accept_pending := s.acceptor_open
        effects := s.effects ++
          [Effect.log_error ("Max connections reached. Rejecting connection from " ++ addr),
           Effect.socket_close] } := by
  simp [do_accept_handler, h, log_error, emit, continue_accept]

theorem accept_rejected_throws (s : State) (n : Bool)
    (h : s.activeConnections_ ≥ s.maxConnections_) :
    do_accept_handler s error_code.success none n =
      Outcome.threw { s with accept_pending := false } "remote_endpoint" := by
  simp [do_accept_handler, h]

theorem accept_admitted (s : State) (r : Option String)
    (h : s.activeConnections_ < s.maxConnections_) :
    do_accept_handler s error_code.success r true = Outcome.returned
      { s with
        accept_pending := s.acceptor_open
        totalConnections_ := atomic_inc s.totalConnections_
        activeConnections_ := atomic_inc s.activeConnections_
        sessions := s.sessions ++ [{ remoteAddress_ := r.getD "unknown", phase := Phase.reading }]
        effects := s.effects ++
          [Effect.log_info ("New connection accepted from " ++ r.getD "unknown" ++
             " | Active: " ++ toString (atomic_inc s.activeConnections_) ++
             " | Total: " ++ toString (atomic_inc s.totalConnections_)),
           Effect.async_read s.sessions.length buffer_size] } := by
  have hnot : ¬ s.activeConnections_ ≥ s.maxConnections_ := not_le.mpr h
  cases r <;>
  simp [do_accept_handler, hnot, session_ctor, log_info, continue_accept, session_start,
    do_read, emit, set_phase, set_snoc_length]

theorem accept_admitted_throws (s : State) (r : Option String)
    (h : s.activeConnections_ < s.maxConnections_) :
    do_accept_handler s error_code.success r false = Outcome.threw
      { s with
        accept_pending := false
        totalConnections_ := atomic_inc s.totalConnections_
        activeConnections_ := atomic_inc s.activeConnections_
        effects := s.effects ++
          [Effect.log_info ("New connection accepted from " ++ r.getD "unknown" ++
             " | Active: " ++ toString (atomic_inc s.activeConnections_) ++
             " | Total: " ++ toString (atomic_inc s.totalConnections_))] }
      "Nc::create" := by
  have hnot : ¬ s.activeConnections_ ≥ s.maxConnections_ := not_le.mpr h
  cases r <;>
  simp [do_accept_handler, hnot, session_ctor, log_info]

theorem accept_error (s : State) (ec : error_code) (r : Option String) (n : Bool)
    (h : ec ≠ error_code.success) :
    do_accept_handler s ec r n = Outcome.returned
      { s with
        accept_pending := s.acceptor_open
        effects := s.effects ++ [Effect.log_error ("Accept error: " ++ ec.message)] } := by
  simp [do_accept_handler, h, log_error, continue_accept]

/-! ## The invariant of the reactor -/

theorem live_filter_set_live (l : List session) (sid : Nat) (sess : session) (p : Phase)
    (h : l[sid]? = some sess) (hl : sess.phase ≠ Phase.destroyed) (hp : p ≠ Phase.destroyed) :
    ((l.set sid { sess with phase := p }).filter session.live).length
      = (l.filter session.live).length := by
  have := length_filter_set session.live l sid sess { sess with phase := p } h
  simp [session.live, hl, hp] at this
  exact this

theorem live_filter_set_destroyed (l : List session) (sid : Nat) (sess : session)
    (h : l[sid]? = some sess) (hl : sess.phase ≠ Phase.destroyed) :
    ((l.set sid { sess with phase := Phase.destroyed }).filter session.live).length + 1
      = (l.filter session.live).length := by
  have := length_filter_set session.live l sid sess { sess with phase := Phase.destroyed } h
  simp [session.live, hl] at this
  exact this

theorem inv_init (M : Int) : Inv M (server_init M) := by
  simp [Inv, server_init, live_count, is_int, wrap_int, INT_MIN, INT_MAX]

theorem inv_of_terminated (M : Int) (s : State) (hmax : s.maxConnections_ = M)
    (hopen : s.acceptor_open = true) (hstop : s.stopped = false)
    (h0 : 0 ≤ s.activeConnections_)
    (hle : s.activeConnections_ ≤ M ∨ s.activeConnections_ = 0)
    (htot : is_int s.totalConnections_) (ht : s.terminated = true) : Inv M s := by
  refine ⟨hmax, hopen, hstop, h0, hle, htot, ?_⟩
  intro h
  rw [ht] at h
  cases h

theorem inv_close (M : Int) (hM : M ≤ INT_MAX) (s : State) (sid : Nat) (sess : session)
    (fx : List Effect) (h : Inv M s) (ht : s.terminated = false)
    (hs : s.sessions[sid]? = some sess) (hl : sess.phase ≠ Phase.destroyed) :
    Inv M { s with
      activeConnections_ := atomic_dec s.activeConnections_
      sessions := s.sessions.set sid { sess with phase := Phase.destroyed }
      effects := fx } := by
  obtain ⟨hmax, hopen, hstop, h0, hle, htot, hrun⟩ := h
  obtain ⟨hact, hpend, htl⟩ := hrun ht
  have hc := live_filter_set_destroyed s.sessions sid sess hs hl
  unfold live_count at hact
  have hdec : atomic_dec s.activeConnections_ = s.activeConnections_ - 1 := by
    unfold atomic_dec wrap_int
    unfold INT_MAX at hM
    omega
  refine ⟨hmax, hopen, hstop, ?_, ?_, htot, ?_⟩
  · simp only [hdec]; omega
  · simp only [hdec]; omega
  · intro _
    refine ⟨?_, hpend, ?_⟩
    · simp only [hdec, live_count]; omega
    · simpa using htl

theorem inv_rephase (M : Int) (s : State) (sid : Nat) (sess : session) (p : Phase)
    (fx : List Effect) (h : Inv M s)
    (hs : s.sessions[sid]? = some sess) (hl : sess.phase ≠ Phase.destroyed)
    (hp : p ≠ Phase.destroyed) :
    Inv M { s with
      sessions := s.sessions.set sid { sess with phase := p }
      effects := fx } := by
  obtain ⟨hmax, hopen, hstop, h0, hle, htot, hrun⟩ := h
  have hc := live_filter_set_live s.sessions sid sess p hs hl hp
  refine ⟨hmax, hopen, hstop, h0, hle, htot, ?_⟩
  intro ht
  obtain ⟨hact, hpend, htl⟩ := hrun ht
  refine ⟨?_, hpend, ?_⟩
  · simp only [live_count, hc]; exact hact
  · simpa using htl

theorem step_of_terminated (s : State) (e : Event) (h : s.terminated = true) :
    step s e = s := by
  simp [step, h]

theorem step_of_stopped (s : State) (e : Event) (h : s.stopped = true) :
    step s e = s := by
  simp [step, h]

theorem step_accept (s : State) (ec : error_code) (r : Option String) (n : Bool)
    (ht : s.terminated = false) (hs : s.stopped = false) (hp : s.accept_pending = true) :
    step s (Event.accept ec r n) = worker (do_accept_handler s ec r n) := by
  simp [step, ht, hs, hp]

theorem step_read (s : State) (sid : Nat) (ec : error_code) (b : Nat) (p : Bool)
    (ht : s.terminated = false) (hs : s.stopped = false) :
    step s (Event.read sid ec b p) = worker (complete_read s sid ec b p) := by
  simp [step, ht, hs]

theorem step_write (s : State) (sid : Nat) (ec : error_code) (b : Nat)
    (ht : s.terminated = false) (hs : s.stopped = false) :
    step s (Event.write sid ec b) = worker (complete_write s sid ec b) := by
  simp [step, ht, hs]

theorem live_filter_snoc (l : List session) (x : session) (hx : x.phase ≠ Phase.destroyed) :
    ((l ++ [x]).filter session.live).length = (l.filter session.live).length + 1 := by
  have hlive : session.live x = true := by simp [session.live, hx]
  rw [List.filter_append, List.length_append]
  simp [hlive]

theorem wrap_int_succ (x : Int) : wrap_int (wrap_int x + 1) = wrap_int (x + 1) := by
  unfold wrap_int
  omega

theorem inv_admit (M : Int) (hM : M ≤ INT_MAX) (s : State) (x : session) (fx : List Effect)
    (h : Inv M s) (ht : s.terminated = false)
    (hlt : s.activeConnections_ < s.maxConnections_) (hx : x.phase ≠ Phase.destroyed) :
    Inv M { s with
      accept_pending := s.acceptor_open
      totalConnections_ := atomic_inc s.totalConnections_
      activeConnections_ := atomic_inc s.activeConnections_
      sessions := s.sessions ++ [x]
      effects := fx } := by
  obtain ⟨hmax, hopen, hstop, h0, hle, htot, hrun⟩ := h
  obtain ⟨hact, hpend, htl⟩ := hrun ht
  have hM' : M ≤ 2147483647 := hM
  have hinc : atomic_inc s.activeConnections_ = s.activeConnections_ + 1 := by
    unfold atomic_inc wrap_int
    omega
  have hc := live_filter_snoc s.sessions x hx
  unfold live_count at hact
  refine ⟨hmax, hopen, hstop, ?_, ?_, is_int_wrap_int _, ?_⟩
  · show 0 ≤ atomic_inc s.activeConnections_
    rw [hinc]; omega
  · show atomic_inc s.activeConnections_ ≤ M ∨ atomic_inc s.activeConnections_ = 0
    rw [hinc]; omega
  · intro _
    refine ⟨?_, hopen, ?_⟩
    · show atomic_inc s.activeConnections_
        = (((s.sessions ++ [x]).filter session.live).length : Int)
      rw [hinc, hc, hact]
      push_cast
      rfl
    · show atomic_inc s.totalConnections_ = wrap_int ((s.sessions ++ [x]).length : Int)
      rw [htl, List.length_append, List.length_singleton]
      push_cast
      exact wrap_int_succ _

theorem inv_admit_throws (M : Int) (hM : M ≤ INT_MAX) (s : State) (fx : List Effect)
    (h : Inv M s)
    (hlt : s.activeConnections_ < s.maxConnections_) :
    Inv M { s with
      accept_pending := false
      totalConnections_ := atomic_inc s.totalConnections_
      activeConnections_ := atomic_inc s.activeConnections_
      effects := fx
      terminated := true } := by
  obtain ⟨hmax, hopen, hstop, h0, hle, htot, hrun⟩ := h
  have hM' : M ≤ 2147483647 := hM
  have hinc : atomic_inc s.activeConnections_ = s.activeConnections_ + 1 := by
    unfold atomic_inc wrap_int
    omega
  refine inv_of_terminated M _ hmax hopen hstop ?_ ?_ (is_int_wrap_int _) rfl
  · show 0 ≤ atomic_inc s.activeConnections_
    rw [hinc]; omega
  · show atomic_inc s.activeConnections_ ≤ M ∨ atomic_inc s.activeConnections_ = 0
    rw [hinc]; omega

theorem inv_accept (M : Int) (hM : M ≤ INT_MAX) (s : State) (ec : error_code)
    (r : Option String) (n : Bool) (h : Inv M s) (ht : s.terminated = false) :
    Inv M (worker (do_accept_handler s ec r n)) := by
  have h' := h
  obtain ⟨hmax, hopen, hstop, h0, hle, htot, hrun⟩ := h
  obtain ⟨hact, hpend, htl⟩ := hrun ht
  by_cases hec : ec = error_code.success
  · subst hec
    by_cases hge : s.activeConnections_ ≥ s.maxConnections_
    · cases r with
      | none =>
        rw [accept_rejected_throws s n hge]
        exact inv_of_terminated M _ hmax hopen hstop h0 hle htot rfl
      | some addr =>
        rw [accept_rejected s addr n hge]
        refine ⟨hmax, hopen, hstop, h0, hle, htot, ?_⟩
        intro _
        exact ⟨hact, hopen, htl⟩
    · have hlt : s.activeConnections_ < s.maxConnections_ := not_le.mp hge
      cases n with
      | false =>
        rw [accept_admitted_throws s r hlt]
        exact inv_admit_throws M hM s _ h' hlt
      | true =>
        rw [accept_admitted s r hlt]
        exact inv_admit M hM s _ _ h' ht hlt (by simp)
  · rw [accept_error s ec r n hec]
    refine ⟨hmax, hopen, hstop, h0, hle, htot, ?_⟩
    intro _
    exact ⟨hact, hopen, htl⟩

theorem inv_read (M : Int) (hM : M ≤ INT_MAX) (s : State) (sid : Nat) (ec : error_code)
    (b : Nat) (p : Bool) (h : Inv M s) (ht : s.terminated = false) :
    Inv M (worker (complete_read s sid ec b p)) := by
  have h' := h
  obtain ⟨hmax, hopen, hstop, h0, hle, htot, hrun⟩ := h
  cases hs : s.sessions[sid]? with
  | none => rw [complete_read_none s sid ec b p hs]; exact h'
  | some sess =>
    by_cases hp : sess.phase = Phase.reading
    · have hl : sess.phase ≠ Phase.destroyed := by rw [hp]; decide
      cases ec with
      | success =>
        cases p with
        | true =>
          rw [complete_read_success s sid sess b hs hp]
          exact inv_rephase M s sid sess Phase.writing _ h' hs hl (by decide)
        | false =>
          rw [complete_read_process_throws s sid sess b hs hp]
          exact inv_of_terminated M _ hmax hopen hstop h0 hle htot rfl
      | eof =>
        rw [complete_read_eof s sid sess b p hs hp]
        exact inv_close M hM s sid sess _ h' ht hs hl
      | failure m =>
        rw [complete_read_failure s sid sess m b p hs hp]
        exact inv_close M hM s sid sess _ h' ht hs hl
    · rw [complete_read_not_reading s sid sess ec b p hs hp]; exact h'

theorem inv_write (M : Int) (hM : M ≤ INT_MAX) (s : State) (sid : Nat) (ec : error_code)
    (b : Nat) (h : Inv M s) (ht : s.terminated = false) :
    Inv M (worker (complete_write s sid ec b)) := by
  have h' := h
  cases hs : s.sessions[sid]? with
  | none => rw [complete_write_none s sid ec b hs]; exact h'
  | some sess =>
    by_cases hp : sess.phase = Phase.writing
    · have hl : sess.phase ≠ Phase.destroyed := by rw [hp]; decide
      by_cases hec : ec = error_code.success
      · subst hec
        rw [complete_write_success s sid sess b hs hp]
        exact inv_rephase M s sid sess Phase.reading _ h' hs hl (by decide)
      · rw [complete_write_error s sid sess ec b hs hp hec]
        exact inv_close M hM s sid sess _ h' ht hs hl
    · rw [complete_write_not_writing s sid sess ec b hs hp]; exact h'

theorem inv_step (M : Int) (hM : M ≤ INT_MAX) (s : State) (e : Event) (h : Inv M s) :
    Inv M (step s e) := by
  cases ht : s.terminated with
  | true => rw [step_of_terminated s e ht]; exact h
  | false =>
    have hstop : s.stopped = false := h.2.2.1
    have hpend : s.accept_pending = true := (h.2.2.2.2.2.2 ht).2.1
    cases e with
    | accept ec r n =>
      rw [step_accept s ec r n ht hstop hpend]
      exact inv_accept M hM s ec r n h ht
    | read sid ec b p =>
      rw [step_read s sid ec b p ht hstop]
      exact inv_read M hM s sid ec b p h ht
    | write sid ec b =>
      rw [step_write s sid ec b ht hstop]
      exact inv_write M hM s sid ec b h ht

theorem run_append (s : State) (es fs : List Event) :
    run s (es ++ fs) = run (run s es) fs := by
  simp [run, List.foldl_append]

theorem inv_run (M : Int) (hM : M ≤ INT_MAX) (s : State) (es : List Event) (h : Inv M s) :
    Inv M (run s es) := by
  induction es generalizing s with
  | nil => exact h
  | cons e t ih => exact ih (step s e) (inv_step M hM s e h)

/-! ## C1: the accept step -/

/-- C1 (counterexample). With the total counter at `INT_MAX` and room left, the accept
handler admits the connection and the total counter becomes `INT_MIN`, not total + 1. -/
theorem do_accept_total_wraps :
    state_total_at_max.activeConnections_ < state_total_at_max.maxConnections_ ∧
    (do_accept_handler state_total_at_max error_code.success (some "10.0.0.1")
      true).state.totalConnections_ = -2147483648 ∧
    (do_accept_handler state_total_at_max error_code.success (some "10.0.0.1")
      true).state.totalConnections_ ≠ state_total_at_max.totalConnections_ + 1 := by
  refine ⟨by decide, ?_, ?_⟩ <;>
  simp [do_accept_handler, state_total_at_max, server_init, session_ctor, log_info,
    continue_accept, session_start, do_read, emit, set_phase, Outcome.state, atomic_inc,
    wrap_int]

/-- C1 (amended). Accept handler of `server::do_accept` on a successful accept, for every
state whose counters and limit are C++ ints. If active >= maxConnections, no session is
created and both counters are unchanged; when moreover the peer address can be read, the
handler returns after logging the rejection and closing the socket. If
active < maxConnections and the engine handle is created, total
becomes total + 1 in 32-bit wrap-around arithmetic (exactly total + 1 whenever
total < INT_MAX), exactly one session is appended and started (it has a read of one frame
outstanding), and active becomes active + 1. -/
theorem do_accept_step (s : State) (remote_endpoint : Option String) (nc_create : Bool)
    (h_act : is_int s.activeConnections_) (h_tot : is_int s.totalConnections_)
    (h_max : is_int s.maxConnections_) :
    (s.activeConnections_ ≥ s.maxConnections_ →
      (do_accept_handler s error_code.success remote_endpoint nc_create).state.sessions
        = s.sessions ∧
      (do_accept_handler s error_code.success remote_endpoint nc_create).state.activeConnections_
        = s.activeConnections_ ∧
      (do_accept_handler s error_code.success remote_endpoint nc_create).state.totalConnections_
        = s.totalConnections_) ∧
    (s.activeConnections_ ≥ s.maxConnections_ → ∀ addr, remote_endpoint = some addr →
      ∃ s1, do_accept_handler s error_code.success remote_endpoint nc_create
          = Outcome.returned s1 ∧
        s1.effects = s.effects ++
          [Effect.log_error ("Max connections reached. Rejecting connection from " ++ addr),
           Effect.socket_close]) ∧
    (s.activeConnections_ < s.maxConnections_ → nc_create = true →
      ∃ s1, do_accept_handler s error_code.success remote_endpoint nc_create
          = Outcome.returned s1 ∧
        s1.totalConnections_ = wrap_int (s.totalConnections_ + 1) ∧
        (s.totalConnections_ < INT_MAX → s1.totalConnections_ = s.totalConnections_ + 1) ∧
        s1.sessions = s.sessions ++
          [{ remoteAddress_ := remote_endpoint.getD "unknown", phase := Phase.reading }] ∧
        s1.activeConnections_ = s.activeConnections_ + 1 ∧
        ∃ line, s1.effects = s.effects ++
          [Effect.log_info line, Effect.async_read s.sessions.length buffer_size]) := by
  refine ⟨?_, ?_, ?_⟩
  · intro hge
    cases remote_endpoint with
    | none => rw [accept_rejected_throws s nc_create hge]; exact ⟨rfl, rfl, rfl⟩
    | some addr => rw [accept_rejected s addr nc_create hge]; exact ⟨rfl, rfl, rfl⟩
  · intro hge addr haddr
    subst haddr
    rw [accept_rejected s addr nc_create hge]
    exact ⟨_, rfl, rfl⟩
  · intro hlt hnc
    subst hnc
    have hnot : ¬ s.activeConnections_ ≥ s.maxConnections_ := not_le.mpr hlt
    have hinc : atomic_inc s.activeConnections_ = s.activeConnections_ + 1 := by
      apply atomic_inc_eq _ h_act
      unfold is_int INT_MAX at *
      omega
    have htot : s.totalConnections_ < INT_MAX →
        wrap_int (s.totalConnections_ + 1) = s.totalConnections_ + 1 :=
      fun h => atomic_inc_eq _ h_tot h
    cases remote_endpoint <;>
    simp [do_accept_handler, hnot, session_ctor, log_info, continue_accept, session_start,
      do_read, emit, set_phase, set_snoc_length, atomic_inc] <;>
    exact ⟨htot, hinc⟩

/-- C1 (instance). At limit 1 with one open session the next connection is rejected and
the registry is unchanged. -/
theorem do_accept_step_witness :
    (do_accept_handler state_full error_code.success (some "10.0.0.2") true).state.sessions
      = state_full.sessions ∧
    (do_accept_handler state_full error_code.success (some "10.0.0.2")
      true).state.activeConnections_ = state_full.activeConnections_ ∧
    (do_accept_handler state_full error_code.success (some "10.0.0.2")
      true).state.totalConnections_ = state_full.totalConnections_ :=
  (do_accept_step state_full (some "10.0.0.2") true (by decide) (by decide) (by decide)).1
    (by decide)

theorem step_of_closes (s : State) (e : Event) (ht : s.terminated = false)
    (hstop : s.stopped = false) (h : closes s e = true) :
    ∃ sid sess fx, s.sessions[sid]? = some sess ∧ sess.phase ≠ Phase.destroyed ∧
      step s e = { s with
        activeConnections_ := atomic_dec s.activeConnections_
        sessions := s.sessions.set sid { sess with phase := Phase.destroyed }
        effects := fx } := by
  cases e with
  | accept ec r n => simp [closes] at h
  | read sid ec b p =>
    simp only [closes, phase_of, Bool.and_eq_true, decide_eq_true_eq, Option.map_eq_some'] at h
    obtain ⟨⟨sess, hs, hp⟩, hec⟩ := h
    have hl : sess.phase ≠ Phase.destroyed := by rw [hp]; decide
    rw [step_read s sid ec b p ht hstop]
    cases ec with
    | success => exact absurd rfl hec
    | eof =>
      rw [complete_read_eof s sid sess b p hs hp]
      exact ⟨sid, sess, _, hs, hl, rfl⟩
    | failure m =>
      rw [complete_read_failure s sid sess m b p hs hp]
      exact ⟨sid, sess, _, hs, hl, rfl⟩
  | write sid ec b =>
    simp only [closes, phase_of, Bool.and_eq_true, decide_eq_true_eq, Option.map_eq_some'] at h
    obtain ⟨⟨sess, hs, hp⟩, hec⟩ := h
    have hl : sess.phase ≠ Phase.destroyed := by rw [hp]; decide
    rw [step_write s sid ec b ht hstop, complete_write_error s sid sess ec b hs hp hec]
    exact ⟨sid, sess, _, hs, hl, rfl⟩

/-! ## C2: the admission bound -/

/-- C2. Admission bound. For every limit M with 0 <= M (M a C++ int) and every sequence of
accept, read and write completions from the initial state of the server, the active counter
of the state reached is at most M. If in that state no exception has ended the process and M
sessions are open, then the next accepted connection is rejected: no session is created and
the counters stay as they are, and (the peer address being readable) the rejection is logged
and the socket is closed. If moreover one open session is then
closed by an end of stream or an I/O error, one session fewer is open and the next accepted
connection passes the admission check; with its engine handle created it becomes a new
session, which brings the active counter back to M. -/
theorem admission_bound (M : Int) (h0 : 0 ≤ M) (hM : M ≤ INT_MAX) (es : List Event) :
    ∀ s, s = run (server_init M) es →
      s.activeConnections_ ≤ M ∧
      (s.terminated = false → (live_count s : Int) = M →
        (∀ r n,
          (step s (Event.accept error_code.success r n)).sessions = s.sessions ∧
          (step s (Event.accept error_code.success r n)).activeConnections_ = M ∧
          (step s (Event.accept error_code.success r n)).totalConnections_
            = s.totalConnections_) ∧
        (∀ addr n,
          (step s (Event.accept error_code.success (some addr) n)).effects = s.effects ++
            [Effect.log_error ("Max connections reached. Rejecting connection from " ++ addr),
             Effect.socket_close]) ∧
        (∀ e, closes s e = true → ∀ r,
          live_count (step s e) + 1 = live_count s ∧
          (∀ n, is_admitted (step s e) (Event.accept error_code.success r n) = true) ∧
          (step (step s e) (Event.accept error_code.success r true)).sessions
            = (step s e).sessions ++
              [{ remoteAddress_ := r.getD "unknown", phase := Phase.reading }] ∧
          (step (step s e) (Event.accept error_code.success r true)).activeConnections_
            = M)) := by
  intro s hs
  have hinv : Inv M s := by
    rw [hs]
    exact inv_run M hM _ es (inv_init M)
  have hinv' := hinv
  obtain ⟨hmax, hopen, hstop, hge0, hle, htot, hrun⟩ := hinv
  refine ⟨by omega, ?_⟩
  intro ht hlive
  obtain ⟨hact, hpend, htl⟩ := hrun ht
  have hfull : s.activeConnections_ ≥ s.maxConnections_ := by omega
  have hactM : s.activeConnections_ = M := by omega
  refine ⟨?_, ?_, ?_⟩
  · intro r n
    rw [step_accept s _ _ n ht hstop hpend]
    cases r with
    | none => rw [accept_rejected_throws s n hfull]; exact ⟨rfl, hactM, rfl⟩
    | some addr => rw [accept_rejected s addr n hfull]; exact ⟨rfl, hactM, rfl⟩
  · intro addr n
    rw [step_accept s _ _ n ht hstop hpend, accept_rejected s addr n hfull]
    rfl
  · intro e he r
    obtain ⟨sid, sess, fx, hsess, hl, hstep⟩ := step_of_closes s e ht hstop he
    have hinv1 : Inv M (step s e) := inv_step M hM s e hinv'
    have hc := live_filter_set_destroyed s.sessions sid sess hsess hl
    have ht1 : (step s e).terminated = false := by rw [hstep]; exact ht
    have hlc : live_count (step s e) + 1 = live_count s := by rw [hstep]; exact hc
    obtain ⟨hmax1, hopen1, hstop1, hge1, hle1, htot1, hrun1⟩ := hinv1
    obtain ⟨hact1, hpend1, htl1⟩ := hrun1 ht1
    have hroom : (step s e).activeConnections_ < (step s e).maxConnections_ := by omega
    refine ⟨hlc, ?_, ?_⟩
    · intro n
      simp [is_admitted, ht1, hstop1, hpend1, hroom]
    rw [step_accept (step s e) _ r true ht1 hstop1 hpend1, accept_admitted _ r hroom]
    refine ⟨rfl, ?_⟩
    show atomic_inc (step s e).activeConnections_ = M
    have hM' : M ≤ 2147483647 := hM
    unfold atomic_inc wrap_int
    omega

/-- C2 (instance). At limit 1, after one accepted connection the active counter is within
the limit. -/
theorem admission_bound_witness :
    (0 : Int) ≤ 1 ∧ (1 : Int) ≤ INT_MAX ∧
    (run (server_init 1)
      [Event.accept error_code.success (some "10.0.0.1") true]).activeConnections_ ≤ 1 :=
  ⟨by decide, by decide,
    (admission_bound 1 (by decide) (by decide)
      [Event.accept error_code.success (some "10.0.0.1") true] _ rfl).1⟩

/-! ## What a step does to the total counter and to the number of sessions -/

theorem read_keeps (s : State) (sid : Nat) (ec : error_code) (b : Nat) (p : Bool) :
    (worker (complete_read s sid ec b p)).totalConnections_ = s.totalConnections_ ∧
    (worker (complete_read s sid ec b p)).sessions.length = s.sessions.length := by
  cases hs : s.sessions[sid]? with
  | none => rw [complete_read_none s sid ec b p hs]; exact ⟨rfl, rfl⟩
  | some sess =>
    by_cases hp : sess.phase = Phase.reading
    · cases ec with
      | success =>
        cases p with
        | true =>
          rw [complete_read_success s sid sess b hs hp]
          exact ⟨rfl, List.length_set _ _ _⟩
        | false =>
          rw [complete_read_process_throws s sid sess b hs hp]
          exact ⟨rfl, List.length_set _ _ _⟩
      | eof =>
        rw [complete_read_eof s sid sess b p hs hp]
        exact ⟨rfl, List.length_set _ _ _⟩
      | failure m =>
        rw [complete_read_failure s sid sess m b p hs hp]
        exact ⟨rfl, List.length_set _ _ _⟩
    · rw [complete_read_not_reading s sid sess ec b p hs hp]; exact ⟨rfl, rfl⟩

theorem write_keeps (s : State) (sid : Nat) (ec : error_code) (b : Nat) :
    (worker (complete_write s sid ec b)).totalConnections_ = s.totalConnections_ ∧
    (worker (complete_write s sid ec b)).sessions.length = s.sessions.length := by
  cases hs : s.sessions[sid]? with
  | none => rw [complete_write_none s sid ec b hs]; exact ⟨rfl, rfl⟩
  | some sess =>
    by_cases hp : sess.phase = Phase.writing
    · by_cases hec : ec = error_code.success
      · subst hec
        rw [complete_write_success s sid sess b hs hp]
        exact ⟨rfl, List.length_set _ _ _⟩
      · rw [complete_write_error s sid sess ec b hs hp hec]
        exact ⟨rfl, List.length_set _ _ _⟩
    · rw [complete_write_not_writing s sid sess ec b hs hp]; exact ⟨rfl, rfl⟩

theorem step_total (s : State) (e : Event) :
    (step s e).totalConnections_
      = if is_admitted s e then atomic_inc s.totalConnections_ else s.totalConnections_ := by
  cases ht : s.terminated with
  | true =>
    rw [step_of_terminated s e ht]
    cases e <;> simp [is_admitted, ht]
  | false =>
    cases hst : s.stopped with
    | true =>
      rw [step_of_stopped s e hst]
      cases e <;> simp [is_admitted, hst]
    | false =>
      cases e with
      | read sid ec b p =>
        rw [step_read s sid ec b p ht hst, (read_keeps s sid ec b p).1]
        simp [is_admitted]
      | write sid ec b =>
        rw [step_write s sid ec b ht hst, (write_keeps s sid ec b).1]
        simp [is_admitted]
      | accept ec r n =>
        cases hpend : s.accept_pending with
        | false => simp [step, ht, hst, hpend, is_admitted]
        | true =>
          rw [step_accept s ec r n ht hst hpend]
          by_cases hec : ec = error_code.success
          · subst hec
            by_cases hge : s.activeConnections_ ≥ s.maxConnections_
            · have hnlt : ¬ s.activeConnections_ < s.maxConnections_ := not_lt.mpr hge
              cases r with
              | none =>
                rw [accept_rejected_throws s n hge]
                simp [is_admitted, hnlt, worker]
              | some addr =>
                rw [accept_rejected s addr n hge]
                simp [is_admitted, hnlt, worker]
            · have hlt : s.activeConnections_ < s.maxConnections_ := not_le.mp hge
              cases n with
              | false =>
                rw [accept_admitted_throws s r hlt]
                simp [is_admitted, hlt, worker, ht, hst, hpend]
              | true =>
                rw [accept_admitted s r hlt]
                simp [is_admitted, hlt, worker, ht, hst, hpend]
          · rw [accept_error s ec r n hec]
            simp [is_admitted, hec, worker]

theorem step_sessions_length (s : State) (e : Event)
    (ht : (step s e).terminated = false) :
    (step s e).sessions.length = s.sessions.length + if is_admitted s e then 1 else 0 := by
  cases ht0 : s.terminated with
  | true =>
    rw [step_of_terminated s e ht0]
    cases e <;> simp [is_admitted, ht0]
  | false =>
    cases hst : s.stopped with
    | true =>
      rw [step_of_stopped s e hst]
      cases e <;> simp [is_admitted, hst]
    | false =>
      cases e with
      | read sid ec b p =>
        rw [step_read s sid ec b p ht0 hst, (read_keeps s sid ec b p).2]
        simp [is_admitted]
      | write sid ec b =>
        rw [step_write s sid ec b ht0 hst, (write_keeps s sid ec b).2]
        simp [is_admitted]
      | accept ec r n =>
        cases hpend : s.accept_pending with
        | false => simp [step, ht0, hst, hpend, is_admitted]
        | true =>
          rw [step_accept s ec r n ht0 hst hpend] at ht ⊢
          by_cases hec : ec = error_code.success
          · subst hec
            by_cases hge : s.activeConnections_ ≥ s.maxConnections_
            · have hnlt : ¬ s.activeConnections_ < s.maxConnections_ := not_lt.mpr hge
              cases r with
              | none =>
                rw [accept_rejected_throws s n hge]
                simp [is_admitted, hnlt, worker]
              | some addr =>
                rw [accept_rejected s addr n hge]
                simp [is_admitted, hnlt, worker]
            · have hlt : s.activeConnections_ < s.maxConnections_ := not_le.mp hge
              cases n with
              | false =>
                rw [accept_admitted_throws s r hlt] at ht
                simp [worker] at ht
              | true =>
                rw [accept_admitted s r hlt]
                simp [is_admitted, hlt, worker, ht0, hst, hpend]
          · rw [accept_error s ec r n hec]
            simp [is_admitted, hec, worker]

theorem run_of_terminated (s : State) (es : List Event) (h : s.terminated = true) :
    run s es = s := by
  induction es with
  | nil => rfl
  | cons e t ih =>
    show run (step s e) t = s
    rw [step_of_terminated s e h]
    exact ih

theorem run_cons (s : State) (e : Event) (es : List Event) :
    run s (e :: es) = run (step s e) es := rfl

theorem run_sessions_length (s : State) (es : List Event)
    (ht : (run s es).terminated = false) :
    (run s es).sessions.length = s.sessions.length + admitted_count s es := by
  induction es generalizing s with
  | nil => simp [run, admitted_count]
  | cons e t ih =>
    rw [run_cons] at ht ⊢
    have ht1 : (step s e).terminated = false := by
      cases h : (step s e).terminated with
      | false => rfl
      | true =>
        rw [run_of_terminated _ t h] at ht
        rw [h] at ht
        cases ht
    rw [ih (step s e) ht, step_sessions_length s e ht1]
    simp only [admitted_count]
    omega

/-! ## C3: registry consistency -/

/-- C3 (amended). Registry consistency. For every limit M that is a C++ int and every
sequence of completions from the initial state of the server of which N pass the admission
check: if no exception has ended the process, N sessions were constructed, and once all of
them are destroyed the active counter is 0 and the total counter is N reduced to 32 bits, so
total equals N whenever N < 2^31. An event that is not an admitted accept (a rejected
connection among them) never changes the total counter. -/
theorem registry_consistency (M : Int) (hM : is_int M) (es : List Event) :
    ∀ s, s = run (server_init M) es →
      (s.terminated = false →
        s.sessions.length = admitted_count (server_init M) es ∧
        ((∀ x ∈ s.sessions, x.phase = Phase.destroyed) →
          s.activeConnections_ = 0 ∧
          s.totalConnections_ = wrap_int (admitted_count (server_init M) es : Int) ∧
          (admitted_count (server_init M) es < 2147483648 →
            s.totalConnections_ = (admitted_count (server_init M) es : Int)))) ∧
      (∀ e, is_admitted s e = false →
        (step s e).totalConnections_ = s.totalConnections_) := by
  intro s hs
  have hinv : Inv M s := by
    rw [hs]
    exact inv_run M hM.2 _ es (inv_init M)
  obtain ⟨hmax, hopen, hstop, hge0, hle, htot, hrun⟩ := hinv
  refine ⟨?_, ?_⟩
  · intro ht
    obtain ⟨hact, hpend, htl⟩ := hrun ht
    have hlen : s.sessions.length = admitted_count (server_init M) es := by
      have := run_sessions_length (server_init M) es (by rw [← hs]; exact ht)
      rw [← hs] at this
      simpa [server_init] using this
    refine ⟨hlen, ?_⟩
    intro hall
    have hnone : s.sessions.filter session.live = [] := by
      rw [List.filter_eq_nil_iff]
      intro x hx
      simp [session.live, hall x hx]
    have hw : s.totalConnections_ = wrap_int (admitted_count (server_init M) es : Int) := by
      rw [htl, hlen]
    refine ⟨?_, hw, ?_⟩
    · rw [hact, live_count, hnone]
      rfl
    · intro hN
      rw [hw]
      unfold wrap_int
      omega
  · intro e he
    rw [step_total s e, he]
    rfl

/-- C3 (instance). At limit 10, after one connection that was admitted and then closed by
its peer, one session was constructed. -/
theorem registry_consistency_witness :
    is_int 10 ∧ (run (server_init 10) (cycles 1)).terminated = false ∧
    (run (server_init 10) (cycles 1)).sessions.length
      = admitted_count (server_init 10) (cycles 1) :=
  ⟨by decide, by decide,
    ((registry_consistency 10 (by decide) (cycles 1) _ rfl).1 (by decide)).1⟩

/-! ## A client that connects and disconnects over and over -/

theorem accept_admitted_fields (s : State) (r : Option String)
    (h : s.activeConnections_ < s.maxConnections_) :
    ∃ fx, do_accept_handler s error_code.success r true = Outcome.returned
      { s with
        accept_pending := s.acceptor_open
        totalConnections_ := atomic_inc s.totalConnections_
        activeConnections_ := atomic_inc s.activeConnections_
        sessions := s.sessions ++ [{ remoteAddress_ := r.getD "unknown", phase := Phase.reading }]
        effects := fx } :=
  ⟨_, accept_admitted s r h⟩

theorem complete_read_eof_fields (s : State) (sid : Nat) (sess : session) (b : Nat) (p : Bool)
    (h : s.sessions[sid]? = some sess) (hp : sess.phase = Phase.reading) :
    ∃ fx, complete_read s sid error_code.eof b p = Outcome.returned
      { s with
        activeConnections_ := atomic_dec s.activeConnections_
        sessions := s.sessions.set sid { sess with phase := Phase.destroyed }
        effects := fx } :=
  ⟨_, complete_read_eof s sid sess b p h hp⟩

theorem step_accept_admitted_fields (s : State) (r : Option String)
    (ht : s.terminated = false) (hst : s.stopped = false) (hp : s.accept_pending = true)
    (h : s.activeConnections_ < s.maxConnections_) :
    ∃ fx, step s (Event.accept error_code.success r true) =
      { s with
        accept_pending := s.acceptor_open
        totalConnections_ := atomic_inc s.totalConnections_
        activeConnections_ := atomic_inc s.activeConnections_
        sessions := s.sessions ++ [{ remoteAddress_ := r.getD "unknown", phase := Phase.reading }]
        effects := fx } := by
  obtain ⟨fx, hfx⟩ := accept_admitted_fields s r h
  exact ⟨fx, by rw [step_accept s _ _ _ ht hst hp, hfx]; rfl⟩

theorem step_read_eof_fields (s : State) (sid : Nat) (sess : session) (b : Nat) (p : Bool)
    (ht : s.terminated = false) (hst : s.stopped = false)
    (h : s.sessions[sid]? = some sess) (hp : sess.phase = Phase.reading) :
    ∃ fx, step s (Event.read sid error_code.eof b p) =
      { s with
        activeConnections_ := atomic_dec s.activeConnections_
        sessions := s.sessions.set sid { sess with phase := Phase.destroyed }
        effects := fx } := by
  obtain ⟨fx, hfx⟩ := complete_read_eof_fields s sid sess b p h hp
  exact ⟨fx, by rw [step_read s _ _ _ _ ht hst, hfx]; rfl⟩

theorem run_one_cycle (s : State) (ht : s.terminated = false) (hst : s.stopped = false)
    (hp : s.accept_pending = true) (hlt : s.activeConnections_ < s.maxConnections_) :
    ∃ fx, run s (one_cycle s.sessions.length) = { s with
      accept_pending := s.acceptor_open
      totalConnections_ := atomic_inc s.totalConnections_
      activeConnections_ := atomic_dec (atomic_inc s.activeConnections_)
      sessions := s.sessions ++ [{ remoteAddress_ := "10.0.0.1", phase := Phase.destroyed }]
      effects := fx } := by
  obtain ⟨fx1, h1⟩ := step_accept_admitted_fields s (some "10.0.0.1") ht hst hp hlt
  have hs1 : (s.sessions ++ [{ remoteAddress_ := "10.0.0.1", phase := Phase.reading }])[
      s.sessions.length]? = some { remoteAddress_ := "10.0.0.1", phase := Phase.reading } :=
    getElem?_snoc_length _ _
  obtain ⟨fx2, h2⟩ := step_read_eof_fields
    { s with
      accept_pending := s.acceptor_open
      totalConnections_ := atomic_inc s.totalConnections_
      activeConnections_ := atomic_inc s.activeConnections_
      sessions := s.sessions ++ [{ remoteAddress_ := "10.0.0.1", phase := Phase.reading }]
      effects := fx1 }
    s.sessions.length { remoteAddress_ := "10.0.0.1", phase := Phase.reading } 0 true ht hst
    hs1 rfl
  refine ⟨fx2, ?_⟩
  show step (step s (Event.accept error_code.success (some "10.0.0.1") true))
    (Event.read s.sessions.length error_code.eof 0 true) = _
  rw [h1]
  simp only [Option.getD_some]
  rw [h2]
  simp only [set_snoc_length]

theorem run_cycles (k : Nat) :
    Inv 1 (run (server_init 1) (cycles k)) ∧
    (run (server_init 1) (cycles k)).terminated = false ∧
    (run (server_init 1) (cycles k)).activeConnections_ = 0 ∧
    (run (server_init 1) (cycles k)).sessions.length = k ∧
    (∀ x ∈ (run (server_init 1) (cycles k)).sessions, x.phase = Phase.destroyed) ∧
    (run (server_init 1) (cycles k)).totalConnections_ = wrap_int (k : Int) := by
  have hinv : ∀ n, Inv 1 (run (server_init 1) (cycles n)) :=
    fun n => inv_run 1 (by decide) _ _ (inv_init 1)
  induction k with
  | zero =>
    exact ⟨hinv 0, rfl, rfl, rfl, by simp [cycles, run, server_init], by decide⟩
  | succ k ih =>
    obtain ⟨hi, ht, hact, hlen, hall, htot⟩ := ih
    obtain ⟨hmax, hopen, hstop, _, _, _, hrun⟩ := hi
    obtain ⟨_, hpend, _⟩ := hrun ht
    have hlt : (run (server_init 1) (cycles k)).activeConnections_
        < (run (server_init 1) (cycles k)).maxConnections_ := by
      rw [hact, hmax]; decide
    obtain ⟨fx, hcyc⟩ := run_one_cycle _ ht hstop hpend hlt
    rw [hlen] at hcyc
    have hrun1 : run (server_init 1) (cycles (k + 1))
        = run (run (server_init 1) (cycles k)) (one_cycle k) :=
      run_append _ _ _
    refine ⟨hinv (k + 1), ?_, ?_, ?_, ?_, ?_⟩
    · rw [hrun1, hcyc]; exact ht
    · rw [hrun1, hcyc]
      show atomic_dec (atomic_inc (run (server_init 1) (cycles k)).activeConnections_) = 0
      rw [hact]; decide
    · rw [hrun1, hcyc]
      show ((run (server_init 1) (cycles k)).sessions ++ [_]).length = k + 1
      rw [List.length_append, hlen]; rfl
    · rw [hrun1, hcyc]
      intro x hx
      have hx' : x ∈ (run (server_init 1) (cycles k)).sessions ++
          [{ remoteAddress_ := "10.0.0.1", phase := Phase.destroyed }] := hx
      rcases List.mem_append.mp hx' with h | h
      · exact hall x h
      · rw [List.mem_singleton.mp h]
    · rw [hrun1, hcyc]
      show atomic_inc (run (server_init 1) (cycles k)).totalConnections_
        = wrap_int ((k + 1 : Nat) : Int)
      rw [htot]
      push_cast
      exact wrap_int_succ _

/-- C3 (counterexample). A server with limit 1 and a client that connects and disconnects
2^31 times: every one of the 2^31 accepted connections is admitted, every session is
destroyed, no exception occurred, and the total counter is -2^31, not 2^31. -/
theorem registry_total_not_count :
    admitted_count (server_init 1) (cycles 2147483648) = 2147483648 ∧
    (run (server_init 1) (cycles 2147483648)).terminated = false ∧
    (∀ x ∈ (run (server_init 1) (cycles 2147483648)).sessions, x.phase = Phase.destroyed) ∧
    (run (server_init 1) (cycles 2147483648)).activeConnections_ = 0 ∧
    (run (server_init 1) (cycles 2147483648)).totalConnections_ = -2147483648 ∧
    (run (server_init 1) (cycles 2147483648)).totalConnections_
      ≠ (admitted_count (server_init 1) (cycles 2147483648) : Int) := by
  obtain ⟨_, ht, hact, hlen, hall, htot⟩ := run_cycles 2147483648
  have hadm : admitted_count (server_init 1) (cycles 2147483648) = 2147483648 := by
    have h := run_sessions_length (server_init 1) (cycles 2147483648) ht
    have h0 : (server_init 1).sessions.length = 0 := rfl
    rw [hlen, h0, Nat.zero_add] at h
    exact h.symm
  have hval : (run (server_init 1) (cycles 2147483648)).totalConnections_ = -2147483648 := by
    rw [htot]
    simp [wrap_int]
  refine ⟨hadm, ht, hall, hact, hval, ?_⟩
  rw [hval, hadm]
  norm_num

/-! ## C4: the registry invariant -/

/-- C4 (counterexample). A server with limit 1 whose client has connected and disconnected
2^31 - 1 times has total = 2147483647; the next admitted connection makes total
-2147483648, which is smaller. -/
theorem registry_total_decreases :
    (run (server_init 1) (cycles 2147483647)).totalConnections_ = 2147483647 ∧
    (step (run (server_init 1) (cycles 2147483647))
      (Event.accept error_code.success (some "10.0.0.1") true)).totalConnections_
        = -2147483648 ∧
    (step (run (server_init 1) (cycles 2147483647))
      (Event.accept error_code.success (some "10.0.0.1") true)).totalConnections_
        < (run (server_init 1) (cycles 2147483647)).totalConnections_ := by
  obtain ⟨hi, ht, hact, hlen, hall, htot⟩ := run_cycles 2147483647
  obtain ⟨hmax, hopen, hstop, _, _, _, hrun⟩ := hi
  obtain ⟨_, hpend, _⟩ := hrun ht
  have hval : (run (server_init 1) (cycles 2147483647)).totalConnections_ = 2147483647 := by
    rw [htot]
    simp [wrap_int]
  have hadm : is_admitted (run (server_init 1) (cycles 2147483647))
      (Event.accept error_code.success (some "10.0.0.1") true) = true := by
    simp [is_admitted, ht, hstop, hpend, hact, hmax]
  have hnext : (step (run (server_init 1) (cycles 2147483647))
      (Event.accept error_code.success (some "10.0.0.1") true)).totalConnections_
        = -2147483648 := by
    rw [step_total, hadm, hval]
    simp [atomic_inc, wrap_int]
  refine ⟨hval, hnext, ?_⟩
  rw [hnext, hval]
  norm_num

/-- C4 (amended). Registry invariant. In every state reached from the initial state of the
server (active = 0, total = 0) by accept, read and write completions, which contain every
session construction and destruction, active >= 0. One further step leaves total unchanged
or replaces it by total + 1 in 32-bit wrap-around arithmetic, so total does not decrease
from one step to the next as long as it is below INT_MAX. -/
theorem registry_invariant (M : Int) (hM : is_int M) (es : List Event) (e : Event) :
    ∀ s, s = run (server_init M) es →
      0 ≤ s.activeConnections_ ∧
      ((step s e).totalConnections_ = s.totalConnections_ ∨
        (step s e).totalConnections_ = wrap_int (s.totalConnections_ + 1)) ∧
      (s.totalConnections_ < INT_MAX →
        s.totalConnections_ ≤ (step s e).totalConnections_) := by
  intro s hs
  have hinv : Inv M s := by
    rw [hs]
    exact inv_run M hM.2 _ es (inv_init M)
  obtain ⟨_, _, _, hge0, _, htot, _⟩ := hinv
  refine ⟨hge0, ?_, ?_⟩
  · rw [step_total s e]
    cases is_admitted s e
    · exact Or.inl rfl
    · exact Or.inr rfl
  · intro hlt
    rw [step_total s e]
    cases is_admitted s e
    · exact le_refl _
    · show s.totalConnections_ ≤ atomic_inc s.totalConnections_
      rw [atomic_inc_eq _ htot hlt]
      omega

/-- C4 (instance). At limit 10, after one admitted connection the active counter is not
negative. -/
theorem registry_invariant_witness :
    is_int 10 ∧
    0 ≤ (run (server_init 10)
      [Event.accept error_code.success (some "10.0.0.1") true]).activeConnections_ :=
  ⟨by decide,
    (registry_invariant 10 (by decide)
      [Event.accept error_code.success (some "10.0.0.1") true]
      (Event.read 0 error_code.eof 0 true) _ rfl).1⟩

/-! ## C5: a session is closed once -/

theorem step_terminating_miss (s : State) (sid : Nat) (e : Event)
    (hterm : is_terminating_for sid e = true) (hc : closes s e = false) :
    step s e = s := by
  cases ht : s.terminated with
  | true => exact step_of_terminated s e ht
  | false =>
    cases hst : s.stopped with
    | true => exact step_of_stopped s e hst
    | false =>
      cases e with
      | accept ec r n => simp [is_terminating_for] at hterm
      | read i ec b p =>
        simp only [is_terminating_for, Bool.and_eq_true, decide_eq_true_eq] at hterm
        obtain ⟨hi, hec⟩ := hterm
        subst hi
        rw [step_read s i ec b p ht hst]
        cases hs : s.sessions[i]? with
        | none => rw [complete_read_none s i ec b p hs]; rfl
        | some sess =>
          have hp : sess.phase ≠ Phase.reading := by
            intro hp
            simp [closes, phase_of, hs, hp, hec] at hc
          rw [complete_read_not_reading s i sess ec b p hs hp]; rfl
      | write i ec b =>
        simp only [is_terminating_for, Bool.and_eq_true, decide_eq_true_eq] at hterm
        obtain ⟨hi, hec⟩ := hterm
        subst hi
        rw [step_write s i ec b ht hst]
        cases hs : s.sessions[i]? with
        | none => rw [complete_write_none s i ec b hs]; rfl
        | some sess =>
          have hp : sess.phase ≠ Phase.writing := by
            intro hp
            simp [closes, phase_of, hs, hp, hec] at hc
          rw [complete_write_not_writing s i sess ec b hs hp]; rfl

theorem phase_of_set (s : State) (sid : Nat) (sess : session) (p : Phase)
    (fx : List Effect) (a : Int) (hs : s.sessions[sid]? = some sess) :
    phase_of { s with
      activeConnections_ := a
      sessions := s.sessions.set sid { sess with phase := p }
      effects := fx } sid = some p := by
  have hlt := lt_length_of_getElem? _ _ _ hs
  simp [phase_of, hlt]

theorem step_closes_sid (s : State) (sid : Nat) (e : Event)
    (ht : s.terminated = false) (hst : s.stopped = false)
    (hterm : is_terminating_for sid e = true) (hc : closes s e = true) :
    (step s e).activeConnections_ = atomic_dec s.activeConnections_ ∧
    phase_of (step s e) sid = some Phase.destroyed := by
  cases e with
  | accept ec r n => simp [is_terminating_for] at hterm
  | read i ec b p =>
    simp only [is_terminating_for, Bool.and_eq_true, decide_eq_true_eq] at hterm
    obtain ⟨hi, hec⟩ := hterm
    subst hi
    simp only [closes, phase_of, Bool.and_eq_true, decide_eq_true_eq, Option.map_eq_some'] at hc
    obtain ⟨⟨sess, hs, hp⟩, _⟩ := hc
    rw [step_read s i ec b p ht hst]
    cases ec with
    | success => exact absurd rfl hec
    | eof =>
      rw [complete_read_eof s i sess b p hs hp]
      exact ⟨rfl, phase_of_set s i sess Phase.destroyed _ _ hs⟩
    | failure m =>
      rw [complete_read_failure s i sess m b p hs hp]
      exact ⟨rfl, phase_of_set s i sess Phase.destroyed _ _ hs⟩
  | write i ec b =>
    simp only [is_terminating_for, Bool.and_eq_true, decide_eq_true_eq] at hterm
    obtain ⟨hi, hec⟩ := hterm
    subst hi
    simp only [closes, phase_of, Bool.and_eq_true, decide_eq_true_eq, Option.map_eq_some'] at hc
    obtain ⟨⟨sess, hs, hp⟩, _⟩ := hc
    rw [step_write s i ec b ht hst, complete_write_error s i sess ec b hs hp hec]
    exact ⟨rfl, phase_of_set s i sess Phase.destroyed _ _ hs⟩

theorem closes_of_destroyed (s : State) (sid : Nat) (e : Event)
    (hph : phase_of s sid = some Phase.destroyed)
    (hterm : is_terminating_for sid e = true) : closes s e = false := by
  cases e with
  | accept ec r n => rfl
  | read i ec b p =>
    simp only [is_terminating_for, Bool.and_eq_true, decide_eq_true_eq] at hterm
    obtain ⟨hi, _⟩ := hterm
    subst hi
    simp [closes, hph]
  | write i ec b =>
    simp only [is_terminating_for, Bool.and_eq_true, decide_eq_true_eq] at hterm
    obtain ⟨hi, _⟩ := hterm
    subst hi
    simp [closes, hph]

theorem run_of_destroyed (s : State) (sid : Nat) (es : List Event)
    (hph : phase_of s sid = some Phase.destroyed)
    (hall : ∀ e ∈ es, is_terminating_for sid e = true) : run s es = s := by
  induction es with
  | nil => rfl
  | cons e t ih =>
    rw [run_cons,
      step_terminating_miss s sid e (hall e (List.mem_cons_self _ _))
        (closes_of_destroyed s sid e hph (hall e (List.mem_cons_self _ _)))]
    exact ih (fun x hx => hall x (List.mem_cons_of_mem _ hx))

theorem run_terminating (s : State) (sid : Nat) (es : List Event)
    (ht : s.terminated = false) (hst : s.stopped = false)
    (hall : ∀ e ∈ es, is_terminating_for sid e = true) :
    ((∃ e ∈ es, closes s e = true) →
      (run s es).activeConnections_ = atomic_dec s.activeConnections_ ∧
      phase_of (run s es) sid = some Phase.destroyed) ∧
    ((¬ ∃ e ∈ es, closes s e = true) → run s es = s) := by
  induction es with
  | nil =>
    refine ⟨?_, fun _ => rfl⟩
    rintro ⟨e, he, _⟩
    cases he
  | cons e t ih =>
    have hte := hall e (List.mem_cons_self _ _)
    have hallt : ∀ x ∈ t, is_terminating_for sid x = true :=
      fun x hx => hall x (List.mem_cons_of_mem _ hx)
    obtain ⟨ih1, ih2⟩ := ih hallt
    cases hc : closes s e with
    | true =>
      obtain ⟨hact, hph⟩ := step_closes_sid s sid e ht hst hte hc
      refine ⟨fun _ => ?_, fun hno => absurd ⟨e, List.mem_cons_self _ _, hc⟩ hno⟩
      rw [run_cons, run_of_destroyed (step s e) sid t hph hallt]
      exact ⟨hact, hph⟩
    | false =>
      have hstep := step_terminating_miss s sid e hte hc
      rw [run_cons, hstep]
      refine ⟨?_, ?_⟩
      · rintro ⟨x, hx, hcx⟩
        rcases List.mem_cons.mp hx with h | h
        · rw [h, hc] at hcx; cases hcx
        · exact ih1 ⟨x, h, hcx⟩
      · intro hno
        exact ih2 (fun ⟨x, hx, hcx⟩ => hno ⟨x, List.mem_cons_of_mem _ hx, hcx⟩)

/-- C5. Closing a session is idempotent with respect to the registry. Take a running server,
a session `sid` with a read or a write outstanding, an active counter that is a C++ int above
INT_MIN, and any sequence `es` of terminating completions addressed to that session (end of
stream or error on a read, error on a write, in any order and number). If some event of the
sequence is one the session sees (it completes the operation that is outstanding), then after
the whole sequence active is exactly active - 1 and the session is destroyed; this is so in
particular when the sequence holds both a read termination and a write termination. If none
is, nothing changes. In every case active ends as active or active - 1, never less. -/
theorem session_closed_once (s : State) (sid : Nat) (es : List Event)
    (ht : s.terminated = false) (hst : s.stopped = false)
    (h_int : is_int s.activeConnections_) (h_min : INT_MIN < s.activeConnections_)
    (hlive : phase_of s sid = some Phase.reading ∨ phase_of s sid = some Phase.writing)
    (hall : ∀ e ∈ es, is_terminating_for sid e = true) :
    ((∃ e ∈ es, closes s e = true) →
      (run s es).activeConnections_ = s.activeConnections_ - 1 ∧
      phase_of (run s es) sid = some Phase.destroyed) ∧
    ((∃ i ec b p, Event.read i ec b p ∈ es) → (∃ i ec b, Event.write i ec b ∈ es) →
      (run s es).activeConnections_ = s.activeConnections_ - 1 ∧
      phase_of (run s es) sid = some Phase.destroyed) ∧
    ((¬ ∃ e ∈ es, closes s e = true) → run s es = s) ∧
    ((run s es).activeConnections_ = s.activeConnections_ ∨
      (run s es).activeConnections_ = s.activeConnections_ - 1) := by
  obtain ⟨h1, h2⟩ := run_terminating s sid es ht hst hall
  have hdec := atomic_dec_eq _ h_int h_min
  rw [hdec] at h1
  refine ⟨h1, ?_, h2, ?_⟩
  · rintro ⟨i, ec, b, p, hr⟩ ⟨j, ec', b', hw⟩
    apply h1
    have htr := hall _ hr
    have htw := hall _ hw
    simp only [is_terminating_for, Bool.and_eq_true, decide_eq_true_eq] at htr htw
    rcases hlive with h | h
    · exact ⟨_, hr, by simp [closes, htr.1, htr.2, h]⟩
    · exact ⟨_, hw, by simp [closes, htw.1, htw.2, h]⟩
  · by_cases hex : ∃ e ∈ es, closes s e = true
    · exact Or.inr (h1 hex).1
    · exact Or.inl (by rw [h2 hex])

/-- C5 (instance). One session with a write outstanding receives a write error and then,
redundantly, an end of stream and a read error: active goes from 1 to 0, once. -/
theorem session_closed_once_witness :
    (run state_writing
      [Event.write 0 (error_code.failure "Broken pipe") 0,
       Event.read 0 error_code.eof 0 true,
       Event.read 0 (error_code.failure "Connection reset by peer") 0 true]).activeConnections_
      = state_writing.activeConnections_ - 1 ∧
    phase_of (run state_writing
      [Event.write 0 (error_code.failure "Broken pipe") 0,
       Event.read 0 error_code.eof 0 true,
       Event.read 0 (error_code.failure "Connection reset by peer") 0 true]) 0
      = some Phase.destroyed :=
  (session_closed_once state_writing 0 _ rfl rfl (by decide) (by decide)
    (Or.inr rfl) (by decide)).2.1 ⟨0, error_code.eof, 0, true, by decide⟩
    ⟨0, error_code.failure "Broken pipe", 0, by decide⟩

/-! ## C6: completion of a read -/

theorem step_of_destroyed (s : State) (sid : Nat)
    (hph : phase_of s sid = some Phase.destroyed) :
    (∀ ec b p, step s (Event.read sid ec b p) = s) ∧
    (∀ ec b, step s (Event.write sid ec b) = s) := by
  simp only [phase_of, Option.map_eq_some'] at hph
  obtain ⟨sess, hs, hp⟩ := hph
  have hr : sess.phase ≠ Phase.reading := by rw [hp]; decide
  have hw : sess.phase ≠ Phase.writing := by rw [hp]; decide
  refine ⟨fun ec b p => ?_, fun ec b => ?_⟩
  · cases ht : s.terminated with
    | true => exact step_of_terminated s _ ht
    | false =>
      cases hst : s.stopped with
      | true => exact step_of_stopped s _ hst
      | false =>
        rw [step_read s sid ec b p ht hst, complete_read_not_reading s sid sess ec b p hs hr]
        rfl
  · cases ht : s.terminated with
    | true => exact step_of_terminated s _ ht
    | false =>
      cases hst : s.stopped with
      | true => exact step_of_stopped s _ hst
      | false =>
        rw [step_write s sid ec b ht hst, complete_write_not_writing s sid sess ec b hs hw]
        rfl

theorem step_read_eof (s : State) (sid : Nat) (sess : session) (b : Nat) (p : Bool)
    (ht : s.terminated = false) (hst : s.stopped = false)
    (h : s.sessions[sid]? = some sess) (hp : sess.phase = Phase.reading) :
    step s (Event.read sid error_code.eof b p) =
      { s with
        activeConnections_ := atomic_dec s.activeConnections_
        sessions := s.sessions.set sid { sess with phase := Phase.destroyed }
        effects := s.effects ++
          [Effect.log_info ("Connection closed gracefully by " ++ sess.remoteAddress_),
           Effect.log_info ("Connection closed from " ++ sess.remoteAddress_ ++
             " | Active: " ++ toString (atomic_dec s.activeConnections_) ++
             " | Total: " ++ toString s.totalConnections_)] } := by
  rw [step_read s sid _ b p ht hst, complete_read_eof s sid sess b p h hp]
  rfl

theorem step_read_failure (s : State) (sid : Nat) (sess : session) (m : String) (b : Nat)
    (p : Bool) (ht : s.terminated = false) (hst : s.stopped = false)
    (h : s.sessions[sid]? = some sess) (hp : sess.phase = Phase.reading) :
    step s (Event.read sid (error_code.failure m) b p) =
      { s with
        activeConnections_ := atomic_dec s.activeConnections_
        sessions := s.sessions.set sid { sess with phase := Phase.destroyed }
        effects := s.effects ++
          [Effect.log_error ("Read error (" ++ sess.remoteAddress_ ++ "): " ++ m),
           Effect.log_info ("Connection closed from " ++ sess.remoteAddress_ ++
             " | Active: " ++ toString (atomic_dec s.activeConnections_) ++
             " | Total: " ++ toString s.totalConnections_)] } := by
  rw [step_read s sid _ b p ht hst, complete_read_failure s sid sess m b p h hp]
  rfl

/-- C6 (counterexample). One open session waits for a frame of 640 bytes; the peer sends 100
bytes and closes. The read completes with end of stream and 100 bytes: the session logs
"Connection closed gracefully" through log_info, and no line goes through log_error. -/
theorem read_eof_mid_frame_is_graceful :
    0 < 100 ∧ 100 < buffer_size ∧
    (step state_full (Event.read 0 error_code.eof 100 true)).effects =
      [Effect.log_info "Connection closed gracefully by 10.0.0.1",
       Effect.log_info "Connection closed from 10.0.0.1 | Active: 0 | Total: 1"] ∧
    ¬ ∃ msg, Effect.log_error msg ∈
      (step state_full (Event.read 0 error_code.eof 100 true)).effects := by
  refine ⟨by decide, by decide, by decide, ?_⟩
  rintro ⟨msg, hmsg⟩
  have heff : (step state_full (Event.read 0 error_code.eof 100 true)).effects =
      [Effect.log_info "Connection closed gracefully by 10.0.0.1",
       Effect.log_info "Connection closed from 10.0.0.1 | Active: 0 | Total: 1"] := by
    decide
  rw [heff] at hmsg
  simp at hmsg

/-- C6 (amended). Read completion in `session::do_read`, for a running server and a session
`sid` with a read outstanding. A clean end of stream, whether it arrives before any byte of
the frame or after any number `n` of bytes, is reported as a graceful close (one log_info
line). Any other I/O error is reported as an error (one log_error line). In both cases the
only further effect is the closing line of the destructor, so no read, process or write is
issued, the session is destroyed, and later completions addressed to it do nothing. -/
theorem read_completion_closes (s : State) (sid : Nat) (sess : session) (n : Nat) (p : Bool)
    (ht : s.terminated = false) (hst : s.stopped = false)
    (hs : s.sessions[sid]? = some sess) (hp : sess.phase = Phase.reading) :
    ((step s (Event.read sid error_code.eof n p)).effects = s.effects ++
        [Effect.log_info ("Connection closed gracefully by " ++ sess.remoteAddress_),
         Effect.log_info ("Connection closed from " ++ sess.remoteAddress_ ++
           " | Active: " ++ toString (atomic_dec s.activeConnections_) ++
           " | Total: " ++ toString s.totalConnections_)] ∧
      phase_of (step s (Event.read sid error_code.eof n p)) sid = some Phase.destroyed) ∧
    (∀ m,
      (step s (Event.read sid (error_code.failure m) n p)).effects = s.effects ++
        [Effect.log_error ("Read error (" ++ sess.remoteAddress_ ++ "): " ++ m),
         Effect.log_info ("Connection closed from " ++ sess.remoteAddress_ ++
           " | Active: " ++ toString (atomic_dec s.activeConnections_) ++
           " | Total: " ++ toString s.totalConnections_)] ∧
      phase_of (step s (Event.read sid (error_code.failure m) n p)) sid
        = some Phase.destroyed) ∧
    (∀ ec, ec ≠ error_code.success →
      (∀ ec1 b1 p1, step (step s (Event.read sid ec n p)) (Event.read sid ec1 b1 p1)
        = step s (Event.read sid ec n p)) ∧
      (∀ ec1 b1, step (step s (Event.read sid ec n p)) (Event.write sid ec1 b1)
        = step s (Event.read sid ec n p))) := by
  have heof := step_read_eof s sid sess n p ht hst hs hp
  have hfail := fun m => step_read_failure s sid sess m n p ht hst hs hp
  refine ⟨?_, ?_, ?_⟩
  · rw [heof]
    exact ⟨rfl, phase_of_set s sid sess Phase.destroyed _ _ hs⟩
  · intro m
    rw [hfail m]
    exact ⟨rfl, phase_of_set s sid sess Phase.destroyed _ _ hs⟩
  · intro ec hec
    have hph : phase_of (step s (Event.read sid ec n p)) sid = some Phase.destroyed := by
      cases ec with
      | success => exact absurd rfl hec
      | eof => rw [heof]; exact phase_of_set s sid sess Phase.destroyed _ _ hs
      | failure m => rw [hfail m]; exact phase_of_set s sid sess Phase.destroyed _ _ hs
    exact step_of_destroyed _ sid hph

/-- C6 (instance). An end of stream before any byte on the only open session is logged as a
graceful close. -/
theorem read_completion_closes_witness :
    (step state_full (Event.read 0 error_code.eof 0 true)).effects = state_full.effects ++
      [Effect.log_info ("Connection closed gracefully by " ++ "10.0.0.1"),
       Effect.log_info ("Connection closed from " ++ "10.0.0.1" ++
         " | Active: " ++ toString (atomic_dec state_full.activeConnections_) ++
         " | Total: " ++ toString state_full.totalConnections_)] ∧
    phase_of (step state_full (Event.read 0 error_code.eof 0 true)) 0
      = some Phase.destroyed :=
  (read_completion_closes state_full 0 { remoteAddress_ := "10.0.0.1", phase := Phase.reading }
    0 true rfl rfl rfl rfl).1

/-! ## C7 and C8: failures of the engine -/

/-- C7 (the code at the failing input). Two sessions are open and wait for a frame; the read
of session 0 completes and `ncSession_->process` throws. The exception leaves the handler and
the worker thread: the process is terminated. Nothing is logged (the only effect is the
engine call), no write is issued, active is still 2, session 0 is not destroyed, and session
1 is gone with the process: a frame that arrives for it afterwards is not processed, whereas
before the failure it would have been processed and written back. -/
theorem process_failure_terminates :
    (step state_two_sessions (Event.read 0 error_code.success 640 false)).terminated = true ∧
    (step state_two_sessions (Event.read 0 error_code.success 640 false)).effects
      = [Effect.process 0 320 320] ∧
    (step state_two_sessions (Event.read 0 error_code.success 640 false)).activeConnections_
      = 2 ∧
    phase_of (step state_two_sessions (Event.read 0 error_code.success 640 false)) 0
      = some Phase.idle ∧
    step (step state_two_sessions (Event.read 0 error_code.success 640 false))
        (Event.read 1 error_code.success 640 true)
      = step state_two_sessions (Event.read 0 error_code.success 640 false) ∧
    (step state_two_sessions (Event.read 1 error_code.success 640 true)).effects
      = [Effect.process 1 320 320, Effect.async_write 1 640] := by
  decide

/-- C8 (the code at the failing input). A server with limit 10 and no connection accepts a
connection and `Nc<int16_t>::create` throws inside the session constructor. The constructor
has already incremented active and the destructor never runs: active is 1 (it was 0), total
is 1, no session exists, and the exception leaves the worker thread, which terminates the
process. -/
theorem create_failure_leaks_active :
    (server_init 10).activeConnections_ = 0 ∧
    (step (server_init 10)
      (Event.accept error_code.success (some "10.0.0.1") false)).activeConnections_ = 1 ∧
    (step (server_init 10)
      (Event.accept error_code.success (some "10.0.0.1") false)).totalConnections_ = 1 ∧
    (step (server_init 10)
      (Event.accept error_code.success (some "10.0.0.1") false)).sessions = [] ∧
    (step (server_init 10)
      (Event.accept error_code.success (some "10.0.0.1") false)).terminated = true := by
  decide

/-! ## C9: frame lengths -/

theorem step_read_success (s : State) (sid : Nat) (sess : session) (b : Nat)
    (ht : s.terminated = false) (hst : s.stopped = false)
    (h : s.sessions[sid]? = some sess) (hp : sess.phase = Phase.reading) :
    step s (Event.read sid error_code.success b true) =
      { s with
        sessions := s.sessions.set sid { sess with phase := Phase.writing }
        effects := s.effects ++
          [Effect.process sid samples_per_20ms samples_per_20ms,
           Effect.async_write sid buffer_size] } := by
  rw [step_read s sid _ b true ht hst, complete_read_success s sid sess b h hp]
  rfl

theorem step_write_success (s : State) (sid : Nat) (sess : session) (b : Nat)
    (ht : s.terminated = false) (hst : s.stopped = false)
    (h : s.sessions[sid]? = some sess) (hp : sess.phase = Phase.writing) :
    step s (Event.write sid error_code.success b) =
      { s with
        sessions := s.sessions.set sid { sess with phase := Phase.reading }
        effects := s.effects ++ [Effect.async_read sid buffer_size] } := by
  rw [step_write s sid _ b ht hst, complete_write_success s sid sess b h hp]
  rfl

/-- C9. Frame-length invariant of the relay. samples_per_20ms = sample_rate * 20 / 1000 = 320
and buffer_size = samples_per_20ms * bytes_per_sample = 640. `do_read` asks for exactly
buffer_size bytes. For a running server and a session with a read outstanding, a successful
read completion calls the engine with samples_per_20ms as the input and as the output sample
count and then writes back exactly buffer_size bytes; the successful completion of that
write issues the next read of exactly buffer_size bytes. The written frame is as long as the
read frame. -/
theorem frame_length (s : State) (sid : Nat) (sess : session) (b : Nat) (b1 : Nat)
    (ht : s.terminated = false) (hst : s.stopped = false)
    (hs : s.sessions[sid]? = some sess) (hp : sess.phase = Phase.reading) :
    samples_per_20ms = sample_rate * 20 / 1000 ∧ samples_per_20ms = 320 ∧
    buffer_size = samples_per_20ms * bytes_per_sample ∧ buffer_size = 640 ∧
    (do_read s sid).effects = s.effects ++ [Effect.async_read sid buffer_size] ∧
    (step s (Event.read sid error_code.success b true)).effects = s.effects ++
      [Effect.process sid samples_per_20ms samples_per_20ms,
       Effect.async_write sid buffer_size] ∧
    (step (step s (Event.read sid error_code.success b true))
      (Event.write sid error_code.success b1)).effects = s.effects ++
      [Effect.process sid samples_per_20ms samples_per_20ms,
       Effect.async_write sid buffer_size,
       Effect.async_read sid buffer_size] ∧
    phase_of (step (step s (Event.read sid error_code.success b true))
      (Event.write sid error_code.success b1)) sid = some Phase.reading := by
  have hlt := lt_length_of_getElem? _ _ _ hs
  have h1 := step_read_success s sid sess b ht hst hs hp
  have ht1 : (step s (Event.read sid error_code.success b true)).terminated = false := by
    rw [h1]; exact ht
  have hst1 : (step s (Event.read sid error_code.success b true)).stopped = false := by
    rw [h1]; exact hst
  have hs1 : (step s (Event.read sid error_code.success b true)).sessions[sid]?
      = some { sess with phase := Phase.writing } := by
    rw [h1]; simp [hlt]
  have h2 := step_write_success _ sid _ b1 ht1 hst1 hs1 rfl
  refine ⟨by decide, by decide, by decide, by decide, ?_, ?_, ?_, ?_⟩
  · simp [do_read, emit, set_phase, hs]
  · rw [h1]
  · rw [h2, h1]
    simp
  · rw [h2, h1]
    simp [phase_of, hlt]

/-- C9 (instance). The only open session of a full server reads a frame, has it processed
and written back, and reads again: 640 bytes each way, 320 samples in and out. -/
theorem frame_length_witness :
    (step (step state_full (Event.read 0 error_code.success 640 true))
      (Event.write 0 error_code.success 640)).effects = state_full.effects ++
      [Effect.process 0 samples_per_20ms samples_per_20ms,
       Effect.async_write 0 buffer_size,
       Effect.async_read 0 buffer_size] ∧
    buffer_size = 640 ∧ samples_per_20ms = 320 :=
  ⟨(frame_length state_full 0 { remoteAddress_ := "10.0.0.1", phase := Phase.reading }
      640 640 rfl rfl rfl rfl).2.2.2.2.2.2.1,
    by decide, by decide⟩

/-! ## C10: the shutdown check -/

theorem graceful_text_ne_forced (t : String) :
    "All connections closed. Shutting down gracefully." ≠
      "Shutdown timeout reached. Forcing shutdown with " ++ t := by
  intro h
  have h2 := congrArg String.data h
  simp at h2

/-- C10. Shutdown check rule. For every state and every `now` and `deadline`: if active is
0 the check logs the graceful line and stops the reactor; otherwise, if now >= deadline it
logs the forced line (with the active count) and stops the reactor; otherwise it does not
stop and schedules exactly one timer wait of 1 second for the next check. The three outcomes
are told apart by what the check appends to the effects, so the graceful outcome occurs iff
active = 0 (also when now >= deadline holds as well), the forced one iff active is not 0 and
now >= deadline, and the rescheduling iff active is not 0 and now < deadline. -/
theorem check_connections_rule (s : State) (now : Int) (deadline : Int) :
    (s.activeConnections_ = 0 →
      check_connections s now deadline = { s with
        stopped := true
        effects := s.effects ++
          [Effect.log_info "All connections closed. Shutting down gracefully."] }) ∧
    (s.activeConnections_ ≠ 0 → now ≥ deadline →
      check_connections s now deadline = { s with
        stopped := true
        effects := s.effects ++
          [Effect.log_info ("Shutdown timeout reached. Forcing shutdown with " ++
            toString s.activeConnections_ ++ " active connection(s).")] }) ∧
    (s.activeConnections_ ≠ 0 → now < deadline →
      check_connections s now deadline = { s with
        effects := s.effects ++ [Effect.timer_wait 1] }) ∧
    ((check_connections s now deadline).effects = s.effects ++
        [Effect.log_info "All connections closed. Shutting down gracefully."]
      ↔ s.activeConnections_ = 0) ∧
    ((check_connections s now deadline).effects = s.effects ++
        [Effect.log_info ("Shutdown timeout reached. Forcing shutdown with " ++
          toString s.activeConnections_ ++ " active connection(s).")]
      ↔ s.activeConnections_ ≠ 0 ∧ now ≥ deadline) ∧
    ((check_connections s now deadline).effects = s.effects ++ [Effect.timer_wait 1]
      ↔ s.activeConnections_ ≠ 0 ∧ now < deadline) ∧
    ((check_connections s now deadline).stopped = true
      ↔ s.stopped = true ∨ s.activeConnections_ = 0 ∨ now ≥ deadline) := by
  have hne := graceful_text_ne_forced
    (toString s.activeConnections_ ++ " active connection(s).")
  rw [← String.append_assoc] at hne
  by_cases h0 : s.activeConnections_ = 0
  · have hc : check_connections s now deadline = { s with
        stopped := true
        effects := s.effects ++
          [Effect.log_info "All connections closed. Shutting down gracefully."] } := by
      simp [check_connections, get_active_connections, h0, io_context_stop, log_info]
    refine ⟨fun _ => hc, fun h => absurd h0 h, fun h => absurd h0 h, ?_, ?_, ?_, ?_⟩
    · rw [hc]; simp [h0]
    · rw [hc]
      constructor
      · intro h
        have h1 := List.append_cancel_left h
        simp only [List.cons.injEq, Effect.log_info.injEq, and_true] at h1
        exact absurd h1 hne
      · intro h; exact absurd h0 h.1
    · rw [hc]
      constructor
      · intro h
        have h1 := List.append_cancel_left h
        simp at h1
      · intro h; exact absurd h0 h.1
    · rw [hc]; simp [h0]
  · by_cases hd : now ≥ deadline
    · have hc : check_connections s now deadline = { s with
          stopped := true
          effects := s.effects ++
            [Effect.log_info ("Shutdown timeout reached. Forcing shutdown with " ++
              toString s.activeConnections_ ++ " active connection(s).")] } := by
        simp [check_connections, get_active_connections, h0, hd, io_context_stop, log_info]
      have hnlt : ¬ now < deadline := not_lt.mpr hd
      refine ⟨fun h => absurd h h0, fun _ _ => hc, fun _ h => absurd h hnlt, ?_, ?_, ?_, ?_⟩
      · rw [hc]
        constructor
        · intro h
          have h1 := List.append_cancel_left h
          simp only [List.cons.injEq, Effect.log_info.injEq, and_true] at h1
          exact absurd h1.symm hne
        · intro h; exact absurd h h0
      · rw [hc]; simp [h0, hd]
      · rw [hc]
        constructor
        · intro h
          have h1 := List.append_cancel_left h
          simp at h1
        · intro h; exact absurd h.2 hnlt
      · rw [hc]; simp [hd]
    · have hlt : now < deadline := not_le.mp hd
      have hc : check_connections s now deadline = { s with
          effects := s.effects ++ [Effect.timer_wait 1] } := by
        simp [check_connections, get_active_connections, h0, hd, emit]
      refine ⟨fun h => absurd h h0, fun _ h => absurd h hd, fun _ _ => hc, ?_, ?_, ?_, ?_⟩
      · rw [hc]
        constructor
        · intro h
          have h1 := List.append_cancel_left h
          simp at h1
        · intro h; exact absurd h h0
      · rw [hc]
        constructor
        · intro h
          have h1 := List.append_cancel_left h
          simp at h1
        · intro h; exact absurd h.2 hd
      · rw [hc]; simp [h0, hlt]
      · rw [hc]; simp [h0, hd]

/-! ## C11 and C12: the drain after a termination signal -/

theorem timer_handler_no_wait (d : Drain) (now : Int) (h : d.wait = none) :
    timer_handler d now = d := by
  simp [timer_handler, h]

theorem drain_no_wait (d : Drain) (times : List Int) (h : d.wait = none) :
    drain d times = d := by
  induction times with
  | nil => rfl
  | cons t ts ih =>
    show drain (timer_handler d t) ts = d
    rw [timer_handler_no_wait d t h]
    exact ih

theorem timer_handler_aborted (d : Drain) (now : Int) (h : d.wait = some operation_aborted) :
    timer_handler d now = d ∨ timer_handler d now = { d with wait := none } := by
  by_cases hrun : (d.state.stopped || d.state.terminated) = true
  · left
    simp [timer_handler, h, hrun]
  · right
    simp [timer_handler, h, hrun, operation_aborted]

theorem drain_aborted (d : Drain) (times : List Int) (h : d.wait = some operation_aborted) :
    (drain d times).state = d.state := by
  induction times with
  | nil => rfl
  | cons t ts ih =>
    show (drain (timer_handler d t) ts).state = d.state
    rcases timer_handler_aborted d t h with h1 | h1
    · rw [h1]; exact ih
    · rw [h1, drain_no_wait _ ts rfl]

/-- C11. Graceful drain. For every state with active = 0, every signal number, every
timeout `T` and every pair of clock readings, the signal handler stops the reactor in its
first check, which it calls itself before it returns: the effects it adds are the shutdown
line, the line of the acceptor and the graceful line, no timer wait is started and none is
outstanding afterwards, and the resulting state is the same for every other timeout. -/
theorem graceful_drain (s : State) (signo : Int) (close_ec : error_code) (t0 : Int) (T : Int)
    (t1 : Int) (h : s.activeConnections_ = 0) :
    (signal_handler s signo close_ec t0 T t1).state.stopped = true ∧
    (signal_handler s signo close_ec t0 T t1).wait = none ∧
    (∃ line, (line = Effect.log_info "Acceptor closed. No longer accepting new connections."
        ∨ line = Effect.log_error ("Error closing acceptor: " ++ close_ec.message)) ∧
      (signal_handler s signo close_ec t0 T t1).state.effects = s.effects ++
        [Effect.log_info ("Shutdown signal (" ++ toString signo ++
           ") received. Initiating graceful shutdown..."),
         line,
         Effect.log_info "All connections closed. Shutting down gracefully."]) ∧
    (∀ T1 : Int, (signal_handler s signo close_ec t0 T1 t1).state
      = (signal_handler s signo close_ec t0 T t1).state) := by
  by_cases hc : close_ec = error_code.success
  · refine ⟨?_, ?_, ?_, ?_⟩
    · simp [signal_handler, server_shutdown, check_connections, get_active_connections,
        log_info, io_context_stop, h, hc]
    · simp [signal_handler, server_shutdown, check_connections, get_active_connections,
        log_info, io_context_stop, h, hc]
    · refine ⟨_, Or.inl rfl, ?_⟩
      simp [signal_handler, server_shutdown, check_connections, get_active_connections,
        log_info, io_context_stop, h, hc]
    · intro T1
      simp [signal_handler, server_shutdown, check_connections, get_active_connections,
        log_info, io_context_stop, h, hc]
  · refine ⟨?_, ?_, ?_, ?_⟩
    · simp [signal_handler, server_shutdown, check_connections, get_active_connections,
        log_info, log_error, io_context_stop, h, hc]
    · simp [signal_handler, server_shutdown, check_connections, get_active_connections,
        log_info, log_error, io_context_stop, h, hc]
    · refine ⟨_, Or.inr rfl, ?_⟩
      simp [signal_handler, server_shutdown, check_connections, get_active_connections,
        log_info, log_error, io_context_stop, h, hc]
    · intro T1
      simp [signal_handler, server_shutdown, check_connections, get_active_connections,
        log_info, log_error, io_context_stop, h, hc]

/-- C11 (instance). A fresh server with no connection receives SIGTERM with the default
timeout of 120 seconds: the handler itself stops the reactor. -/
theorem graceful_drain_witness :
    (server_init 10).activeConnections_ = 0 ∧
    (signal_handler (server_init 10) 15 error_code.success 5000000000 120
      5000001000).state.stopped = true ∧
    (signal_handler (server_init 10) 15 error_code.success 5000000000 120
      5000001000).wait = none :=
  ⟨rfl,
    (graceful_drain (server_init 10) 15 error_code.success 5000000000 120 5000001000 rfl).1,
    (graceful_drain (server_init 10) 15 error_code.success 5000000000 120 5000001000 rfl).2.1⟩

/-- C12 (the code at the failing input). One connection is open and stays open; SIGTERM is
handled at clock value 0 with the timeout of 120 seconds. The first check does not stop the
reactor and starts a timer wait, but when the handler returns the timer no longer exists and
the wait is cancelled. The wait handler sees `operation_aborted` and does not check again:
at 1 s, 2 s, 120 s and 121 s after the signal the reactor is not stopped and nothing was
added to the effects, and there is no sequence of later completions after which it is
stopped. -/
theorem forced_drain_checks_once :
    (signal_handler state_full 15 error_code.success 0 120 0).state.stopped = false ∧
    (signal_handler state_full 15 error_code.success 0 120 0).timer_alive = false ∧
    (signal_handler state_full 15 error_code.success 0 120 0).wait
      = some operation_aborted ∧
    (signal_handler state_full 15 error_code.success 0 120 0).state.effects =
      [Effect.log_info "Shutdown signal (15) received. Initiating graceful shutdown...",
       Effect.log_info "Acceptor closed. No longer accepting new connections.",
       Effect.timer_wait 1] ∧
    (drain (signal_handler state_full 15 error_code.success 0 120 0)
      [1 * ticks_per_second, 2 * ticks_per_second, 120 * ticks_per_second,
       121 * ticks_per_second]).state
      = (signal_handler state_full 15 error_code.success 0 120 0).state ∧
    ¬ ∃ times, (drain (signal_handler state_full 15 error_code.success 0 120 0)
      times).state.stopped = true := by
  have hw : (signal_handler state_full 15 error_code.success 0 120 0).wait
      = some operation_aborted := by decide
  have hs : (signal_handler state_full 15 error_code.success 0 120 0).state.stopped
      = false := by decide
  refine ⟨hs, by decide, hw, by decide, drain_aborted _ _ hw, ?_⟩
  rintro ⟨times, ht⟩
  rw [drain_aborted _ times hw, hs] at ht
  cases ht

/-! ## C13: the order of the operations of one session -/

theorem session_ops_append (sid : Nat) (a b : List Effect) :
    session_ops sid (a ++ b) = session_ops sid a ++ session_ops sid b := by
  simp [session_ops, List.filterMap_append]

theorem phase_of_set_ne (l : List session) (i sid : Nat) (x : session) (h : i ≠ sid) :
    ((l.set i x)[sid]?).map session.phase = (l[sid]?).map session.phase := by
  rw [List.getElem?_set_ne h]

theorem phase_of_set_eq (l : List session) (i : Nat) (x y : session) (h : l[i]? = some x) :
    ((l.set i y)[i]?).map session.phase = some y.phase := by
  have hlt := lt_length_of_getElem? _ _ _ h
  simp [hlt]

theorem phase_of_snoc_ne (l : List session) (x : session) (sid : Nat)
    (h : sid ≠ l.length) :
    ((l ++ [x])[sid]?).map session.phase = (l[sid]?).map session.phase := by
  by_cases hlt : sid < l.length
  · rw [List.getElem?_append_left hlt]
  · have hgt : l.length < sid := by omega
    have h1 : (l ++ [x])[sid]? = none := by
      apply List.getElem?_eq_none
      simp
      omega
    have h2 : l[sid]? = none := by
      apply List.getElem?_eq_none
      omega
    rw [h1, h2]

theorem move_same (s : State) (e : Event) (sid : Nat)
    (h1 : session_ops sid (step s e).effects = session_ops sid s.effects)
    (h2 : phase_of (step s e) sid = phase_of s sid) : StepMove s e sid :=
  Or.inl ⟨h1, Or.inl h2⟩

theorem move_of_eq (s : State) (e : Event) (sid : Nat) (h : step s e = s) :
    StepMove s e sid := by
  apply move_same <;> rw [h]

theorem move_accept (s : State) (ec : error_code) (r : Option String) (n : Bool) (sid : Nat)
    (ht : s.terminated = false) (hst : s.stopped = false) :
    StepMove s (Event.accept ec r n) sid := by
  cases hpend : s.accept_pending with
  | false =>
    apply move_of_eq
    simp [step, ht, hst, hpend]
  | true =>
    have hstep := step_accept s ec r n ht hst hpend
    by_cases hec : ec = error_code.success
    · subst hec
      by_cases hge : s.activeConnections_ ≥ s.maxConnections_
      · cases r with
        | none =>
          apply move_same <;> rw [hstep, accept_rejected_throws s n hge] <;> rfl
        | some addr =>
          apply move_same
          · rw [hstep, accept_rejected s addr n hge]
            simp [worker, session_ops, List.filterMap_append, op_of]
          · rw [hstep, accept_rejected s addr n hge]; rfl
      · have hlt : s.activeConnections_ < s.maxConnections_ := not_le.mp hge
        cases n with
        | false =>
          apply move_same
          · rw [hstep, accept_admitted_throws s r hlt]
            simp [worker, session_ops, List.filterMap_append, op_of]
          · rw [hstep, accept_admitted_throws s r hlt]; rfl
        | true =>
          by_cases hsid : sid = s.sessions.length
          · subst hsid
            right; left
            refine ⟨?_, ?_, ?_, r, rfl⟩
            · rw [hstep, accept_admitted s r hlt]
              simp [worker, session_ops, List.filterMap_append, op_of]
            · rw [hstep, accept_admitted s r hlt]
              simp [worker, phase_of]
            · simp [phase_of]
          · apply move_same
            · rw [hstep, accept_admitted s r hlt]
              have hne : ¬ s.sessions.length = sid := fun h => hsid h.symm
              simp [worker, session_ops, List.filterMap_append, op_of, hne]
            · rw [hstep, accept_admitted s r hlt]
              exact phase_of_snoc_ne s.sessions _ sid hsid
    · apply move_same
      · rw [hstep, accept_error s ec r n hec]
        simp [worker, session_ops, List.filterMap_append, op_of]
      · rw [hstep, accept_error s ec r n hec]; rfl

theorem move_closed (s : State) (e : Event) (i sid : Nat) (sess : session)
    (fx : List Effect) (a : Int) (hs : s.sessions[i]? = some sess)
    (hp : sess.phase = Phase.reading ∨ sess.phase = Phase.writing)
    (hfx : session_ops sid fx = [])
    (hstep : step s e = { s with
      activeConnections_ := a
      sessions := s.sessions.set i { sess with phase := Phase.destroyed }
      effects := s.effects ++ fx }) : StepMove s e sid := by
  left
  refine ⟨?_, ?_⟩
  · rw [hstep]
    show session_ops sid (s.effects ++ fx) = session_ops sid s.effects
    rw [session_ops_append, hfx, List.append_nil]
  · by_cases hi : i = sid
    · subst hi
      right
      refine ⟨?_, ?_⟩
      · rw [hstep]
        exact phase_of_set_eq s.sessions i sess _ hs
      · simp only [phase_of, hs, Option.map_some']
        rcases hp with h | h
        · left; rw [h]
        · right; rw [h]
    · left
      rw [hstep]
      exact phase_of_set_ne s.sessions i sid _ hi

theorem move_read (s : State) (i : Nat) (ec : error_code) (b : Nat) (p : Bool) (sid : Nat)
    (ht : s.terminated = false) (hst : s.stopped = false) :
    StepMove s (Event.read i ec b p) sid := by
  have hstep := step_read s i ec b p ht hst
  cases hs : s.sessions[i]? with
  | none =>
    apply move_of_eq
    rw [hstep, complete_read_none s i ec b p hs]; rfl
  | some sess =>
    by_cases hp : sess.phase = Phase.reading
    · cases ec with
      | success =>
        cases p with
        | true =>
          have h1 := step_read_success s i sess b ht hst hs hp
          by_cases hi : i = sid
          · subst hi
            right; right; left
            refine ⟨?_, ?_, ?_, b, rfl⟩
            · rw [h1]
              simp [session_ops, List.filterMap_append, op_of]
            · rw [h1]
              exact phase_of_set_eq s.sessions i sess _ hs
            · simp [phase_of, hs, hp]
          · apply move_same
            · rw [h1]
              simp [session_ops, List.filterMap_append, op_of, hi]
            · rw [h1]
              exact phase_of_set_ne s.sessions i sid _ hi
        | false =>
          have h1 : step s (Event.read i error_code.success b false) =
              { s with
                sessions := s.sessions.set i { sess with phase := Phase.idle }
                effects := s.effects ++ [Effect.process i samples_per_20ms samples_per_20ms]
                terminated := true } := by
            rw [hstep, complete_read_process_throws s i sess b hs hp]
            rfl
          by_cases hi : i = sid
          · subst hi
            right; right; right; left
            refine ⟨?_, ?_, ?_, ?_, b, rfl⟩
            · rw [h1]
              simp [session_ops, List.filterMap_append, op_of]
            · rw [h1]
              exact phase_of_set_eq s.sessions i sess _ hs
            · simp [phase_of, hs, hp]
            · rw [h1]
          · apply move_same
            · rw [h1]
              simp [session_ops, List.filterMap_append, op_of, hi]
            · rw [h1]
              exact phase_of_set_ne s.sessions i sid _ hi
      | eof =>
        exact move_closed s _ i sid sess _ _ hs (Or.inl hp)
          (by simp [session_ops, op_of]) (step_read_eof s i sess b p ht hst hs hp)
      | failure m =>
        exact move_closed s _ i sid sess _ _ hs (Or.inl hp)
          (by simp [session_ops, op_of]) (step_read_failure s i sess m b p ht hst hs hp)
    · apply move_of_eq
      rw [hstep, complete_read_not_reading s i sess ec b p hs hp]; rfl

theorem move_write (s : State) (i : Nat) (ec : error_code) (b : Nat) (sid : Nat)
    (ht : s.terminated = false) (hst : s.stopped = false) :
    StepMove s (Event.write i ec b) sid := by
  have hstep := step_write s i ec b ht hst
  cases hs : s.sessions[i]? with
  | none =>
    apply move_of_eq
    rw [hstep, complete_write_none s i ec b hs]; rfl
  | some sess =>
    by_cases hp : sess.phase = Phase.writing
    · by_cases hec : ec = error_code.success
      · subst hec
        have h1 := step_write_success s i sess b ht hst hs hp
        by_cases hi : i = sid
        · subst hi
          right; right; right; right
          refine ⟨?_, ?_, ?_, b, rfl⟩
          · rw [h1]
            simp [session_ops, List.filterMap_append, op_of]
          · rw [h1]
            exact phase_of_set_eq s.sessions i sess _ hs
          · simp [phase_of, hs, hp]
        · apply move_same
          · rw [h1]
            simp [session_ops, List.filterMap_append, op_of, hi]
          · rw [h1]
            exact phase_of_set_ne s.sessions i sid _ hi
      · have h1 : step s (Event.write i ec b) = { s with
            activeConnections_ := atomic_dec s.activeConnections_
            sessions := s.sessions.set i { sess with phase := Phase.destroyed }
            effects := s.effects ++
              [Effect.log_error ("Write error (" ++ sess.remoteAddress_ ++ "): " ++
                 ec.message),
               Effect.log_info ("Connection closed from " ++ sess.remoteAddress_ ++
                 " | Active: " ++ toString (atomic_dec s.activeConnections_) ++
                 " | Total: " ++ toString s.totalConnections_)] } := by
          rw [hstep, complete_write_error s i sess ec b hs hp hec]
          rfl
        exact move_closed s _ i sid sess _ _ hs (Or.inr hp)
          (by simp [session_ops, op_of]) h1
    · apply move_of_eq
      rw [hstep, complete_write_not_writing s i sess ec b hs hp]; rfl

theorem step_move (s : State) (e : Event) (sid : Nat) : StepMove s e sid := by
  cases ht : s.terminated with
  | true => exact move_of_eq s e sid (step_of_terminated s e ht)
  | false =>
    cases hst : s.stopped with
    | true => exact move_of_eq s e sid (step_of_stopped s e hst)
    | false =>
      cases e with
      | accept ec r n => exact move_accept s ec r n sid ht hst
      | read i ec b p => exact move_read s i ec b p sid ht hst
      | write i ec b => exact move_write s i ec b sid ht hst

theorem ops_in_order_snoc (ops : List Op) (x : Op) (h : ops_in_order ops)
    (hx : x = nth_op ops.length) : ops_in_order (ops ++ [x]) := by
  intro i o hi
  by_cases hlt : i < ops.length
  · rw [List.getElem?_append_left hlt] at hi
    exact h i o hi
  · by_cases heq : i = ops.length
    · subst heq
      rw [getElem?_snoc_length] at hi
      cases hi
      exact hx
    · have hnone : (ops ++ [x])[i]? = none := by
        apply List.getElem?_eq_none
        simp
        omega
      rw [hnone] at hi
      cases hi

theorem nth_op_of_mod_zero (n : Nat) (h : n % 3 = 0) : nth_op n = Op.read := by
  simp [nth_op, h]

theorem nth_op_of_mod_one (n : Nat) (h : n % 3 = 1) : nth_op n = Op.process := by
  simp [nth_op, h]

theorem nth_op_of_mod_two (n : Nat) (h : n % 3 = 2) : nth_op n = Op.write := by
  simp [nth_op, h]

theorem ord_inv_step (s : State) (e : Event) (sid : Nat) (h : OrdInv s sid) :
    OrdInv (step s e) sid := by
  obtain ⟨hord, hfit⟩ := h
  rcases step_move s e sid with
    ⟨hops, hph⟩ | ⟨hops, hph, hold, _⟩ | ⟨hops, hph, hold, _⟩ |
    ⟨hops, hph, hold, _, _⟩ | ⟨hops, hph, hold, _⟩
  · refine ⟨by rw [hops]; exact hord, ?_⟩
    rw [hops]
    rcases hph with hsame | ⟨hdes, hwas⟩
    · rw [hsame]; exact hfit
    · rw [hdes]
      rcases hwas with hr | hw
      · rw [hr] at hfit
        exact Or.inl hfit
      · rw [hw] at hfit
        exact Or.inr hfit
  · rw [hold] at hfit
    have hlen : (session_ops sid s.effects).length = 0 := hfit
    refine ⟨?_, ?_⟩
    · rw [hops]
      exact ops_in_order_snoc _ _ hord (by rw [nth_op_of_mod_zero _ (by omega)])
    · rw [hops, hph, List.length_append, List.length_singleton]
      show ((session_ops sid s.effects).length + 1) % 3 = 1
      omega
  · rw [hold] at hfit
    have hlen : (session_ops sid s.effects).length % 3 = 1 := hfit
    refine ⟨?_, ?_⟩
    · rw [hops]
      have h1 : ops_in_order (session_ops sid s.effects ++ [Op.process]) :=
        ops_in_order_snoc _ _ hord (by rw [nth_op_of_mod_one _ hlen])
      have h2 := ops_in_order_snoc _ Op.write h1 (by
        rw [nth_op_of_mod_two _ (by
          rw [List.length_append, List.length_singleton]; omega)])
      simpa using h2
    · rw [hops, hph]
      show (session_ops sid s.effects ++ [Op.process, Op.write]).length % 3 = 0 ∧
        0 < (session_ops sid s.effects ++ [Op.process, Op.write]).length
      simp only [List.length_append, List.length_cons, List.length_nil]
      omega
  · rw [hold] at hfit
    have hlen : (session_ops sid s.effects).length % 3 = 1 := hfit
    refine ⟨?_, ?_⟩
    · rw [hops]
      exact ops_in_order_snoc _ _ hord (by rw [nth_op_of_mod_one _ hlen])
    · rw [hops, hph, List.length_append, List.length_singleton]
      show ((session_ops sid s.effects).length + 1) % 3 = 2
      omega
  · rw [hold] at hfit
    have hlen : (session_ops sid s.effects).length % 3 = 0 ∧
        0 < (session_ops sid s.effects).length := hfit
    refine ⟨?_, ?_⟩
    · rw [hops]
      exact ops_in_order_snoc _ _ hord (by rw [nth_op_of_mod_zero _ hlen.1])
    · rw [hops, hph, List.length_append, List.length_singleton]
      show ((session_ops sid s.effects).length + 1) % 3 = 1
      omega

theorem ord_inv_run (s : State) (es : List Event) (sid : Nat) (h : OrdInv s sid) :
    OrdInv (run s es) sid := by
  induction es generalizing s with
  | nil => exact h
  | cons e t ih => exact ih (step s e) (ord_inv_step s e sid h)

theorem ord_inv_init (M : Int) (sid : Nat) : OrdInv (server_init M) sid := by
  refine ⟨?_, ?_⟩
  · intro i o hi
    simp [server_init, session_ops] at hi
  · simp [server_init, session_ops, phase_of, phase_fits]

/-- C13. Per-session ordering. In every state reached from the initial state of the server
by accept, read and write completions, the operations that a session has issued are,
position by position, the sequence read, process, write, read, process, write, ...: while
a read is outstanding the last operation issued is that read (3k + 1 operations), while a
write is outstanding it is that write (3k + 3 operations), so one operation at most is
outstanding, and a session that does not exist has issued none. One further step changes the
operations of the session only in these ways: its first read is issued by the accept that
creates it; process and then write are issued by the error-free completion of its outstanding
read (process alone when the engine throws); the next read is issued by the error-free
completion of its outstanding write. -/
theorem session_ordering (M : Int) (es : List Event) (sid : Nat) :
    ops_in_order (session_ops sid (run (server_init M) es).effects) ∧
    (phase_of (run (server_init M) es) sid = some Phase.reading →
      (session_ops sid (run (server_init M) es).effects).length % 3 = 1) ∧
    (phase_of (run (server_init M) es) sid = some Phase.writing →
      (session_ops sid (run (server_init M) es).effects).length % 3 = 0 ∧
      0 < (session_ops sid (run (server_init M) es).effects).length) ∧
    (phase_of (run (server_init M) es) sid = none →
      session_ops sid (run (server_init M) es).effects = []) ∧
    (∀ e, StepMove (run (server_init M) es) e sid) := by
  obtain ⟨hord, hfit⟩ := ord_inv_run (server_init M) es sid (ord_inv_init M sid)
  refine ⟨hord, ?_, ?_, ?_, fun e => step_move _ e sid⟩
  · intro h
    rw [h] at hfit
    exact hfit
  · intro h
    rw [h] at hfit
    exact hfit
  · intro h
    rw [h] at hfit
    exact List.length_eq_zero.mp hfit

/-! ## C14: the command line of main -/

theorem main_usage (atoi : String → Int) (stof : String → Option ℚ) (run : RunOutcome)
    (destroy_ok : Bool) (argv : List String) (h : argv.length < 3) :
    main atoi stof run destroy_ok argv =
      { exit := Exit.returned 1, server := none, messages := [usage_message] } := by
  simp [main, h]

theorem main_runs (atoi : String → Int) (stof : String → Option ℚ) (argv : List String)
    (level : ℚ) (h : 3 ≤ argv.length)
    (hlevel : (if argv.length ≥ 4 then stof (argv.getD 3 "") else some 100) = some level) :
    main atoi stof RunOutcome.joined true argv =
      { exit := Exit.returned 0
        server := some
          { port := wrap_short (atoi (argv.getD 1 ""))
            model_path := argv.getD 2 ""
            noiseSuppressionLevel := level
            maxConnections := if argv.length ≥ 5 then atoi (argv.getD 4 "") else 10
            shutdownTimeoutSec := if argv.length ≥ 6 then atoi (argv.getD 5 "") else 120 }
        messages := [] } := by
  have h3 : ¬ argv.length < 3 := by omega
  simp only [main, h3, if_false, hlevel]
  simp

theorem main_level_throws (atoi : String → Int) (stof : String → Option ℚ) (run : RunOutcome)
    (destroy_ok : Bool) (argv : List String) (h : 4 ≤ argv.length)
    (hlevel : stof (argv.getD 3 "") = none) :
    main atoi stof run destroy_ok argv =
      { exit := Exit.terminate, server := none, messages := [] } := by
  have h3 : ¬ argv.length < 3 := by omega
  have h4 : argv.length ≥ 4 := h
  simp only [main, h3, if_false, h4, if_true, hlevel]

/-- C14 (the code at the failing input). The argument vector
`apm-krisp-nc 9000 model.kef abc` has the two required arguments, but `std::stof("abc")`
throws on line 252, outside the try block: `std::terminate` is called, no server is started
and `main` does not return 0. With `50` in place of `abc` the server runs with level 50 and
the defaults 10 and 120, and `main` returns 0; with fewer than two arguments `main` prints the
usage line and returns 1. -/
theorem main_bad_level_terminates :
    main atoi_digits stof_digits RunOutcome.joined true
        ["apm-krisp-nc", "9000", "model.kef", "abc"]
      = { exit := Exit.terminate, server := none, messages := [] } ∧
    main atoi_digits stof_digits RunOutcome.joined true
        ["apm-krisp-nc", "9000", "model.kef", "50"]
      = { exit := Exit.returned 0
          server := some
            { port := 9000
              model_path := "model.kef"
              noiseSuppressionLevel := 50
              maxConnections := 10
              shutdownTimeoutSec := 120 }
          messages := [] } ∧
    main atoi_digits stof_digits RunOutcome.joined true ["apm-krisp-nc", "9000"]
      = { exit := Exit.returned 1, server := none, messages := [usage_message] } := by
  decide

/-! ## C15: the size of the thread pool -/

theorem start_threads_eq (n : Nat) (d : Nat) :
    ∀ i k, n - i = d → start_threads n i k = k + (n - i) := by
  induction d with
  | zero =>
    intro i k h
    rw [start_threads]
    have hnot : ¬ i < n := by omega
    simp [hnot, h]
  | succ d ih =>
    intro i k h
    rw [start_threads]
    have hlt : i < n := by omega
    simp only [hlt, if_true]
    rw [ih (i + 1) (k + 1) (by omega)]
    omega

theorem worker_threads_eq (h : Nat) : worker_threads h = thread_count h := by
  unfold worker_threads
  rw [start_threads_eq (thread_count h) (thread_count h) 0 0 rfl]
  omega

/-- C15 (counterexample). When `hardware_concurrency()` reports 1, one worker thread is
started, not two. -/
theorem worker_threads_one :
    worker_threads 1 = 1 ∧ ¬ 2 ≤ worker_threads 1 := by
  rw [worker_threads_eq]
  decide

/-- C15 (amended). Execution pool size. For every value h reported by
`hardware_concurrency()`, the number of worker threads started is h when h is not 0 and 2
when h is 0; it is at least 1, and at least 2 for every h other than 1. -/
theorem worker_threads_rule (h : Nat) :
    worker_threads h = (if h = 0 then 2 else h) ∧
    1 ≤ worker_threads h ∧
    (h ≠ 1 → 2 ≤ worker_threads h) := by
  rw [worker_threads_eq]
  unfold thread_count
  by_cases h0 : h = 0
  · simp [h0]
  · simp only [h0, if_false]
    refine ⟨trivial, by omega, fun h1 => by omega⟩

/-! ## C16, C17 and C18: the Node addon -/

/-- C16 (the code at the failing input). A 16-bit processor configured for 16 kHz has a
frame of 160 samples, 320 bytes. Two buffers of 322 bytes (161 samples) are not a multiple of
the frame size, yet `processFrames` does not reject them: it reports success after two engine
calls, and the second call, at sample offset 160 for 160 samples, reaches past the end of both
buffers. Two buffers of 318 bytes, shorter than one frame, are rejected with no engine
call. -/
theorem process_frames_accepts_part_frame :
    processor_16k.m_frameSize = 160 ∧ processor_16k.m_frameSizeInBytes = 320 ∧
    322 % 320 ≠ 0 ∧
    processFrames 2 3 processor_16k [JsValue.buffer 322, JsValue.buffer 322] (fun _ => true)
      = some (JsResult.undefined,
          [{ offset := 0, numInputSamples := 160, numOutputSamples := 160, level := 50 },
           { offset := 160, numInputSamples := 160, numOutputSamples := 160, level := 50 }]) ∧
    EngineCall.in_bounds
      { offset := 160, numInputSamples := 160, numOutputSamples := 160, level := 50 }
      (322 / 2) = false ∧
    processFrames 2 3 processor_16k [JsValue.buffer 318, JsValue.buffer 318] (fun _ => true)
      = some (JsResult.exception "Input buffer too small for one frame", []) := by
  decide

theorem process_loop_runs_on (p : KrispAudioProcessor) (numSamples : Nat)
    (process_ok : Nat → Bool) (hbig : UINT_MODULUS ≤ numSamples)
    (hok : ∀ i, process_ok i = true) :
    ∀ fuel i calls, i < UINT_MODULUS →
      process_loop p numSamples process_ok fuel i calls = none := by
  intro fuel
  induction fuel with
  | zero => intro i calls _; rfl
  | succ fuel ih =>
    intro i calls hi
    have hlt : i < numSamples := by omega
    simp only [process_loop, hlt, if_true, hok]
    apply ih
    exact Nat.mod_lt _ (by decide)

/-- C17 (counterexample). A 16-bit processor configured for 16 kHz (frame of 160 samples)
is given two buffers of 4294967360 samples each, a positive multiple of 160 (8589934720
bytes). The index of the loop is an `unsigned int` and stays below 2^32, so it never reaches
the number of samples: whatever the number of iterations allowed, the loop has not ended. -/
theorem process_frames_loops_forever :
    4294967360 % 160 = 0 ∧ 4294967360 * 2 = 8589934720 ∧
    ¬ ∃ fuel r, processFrames 2 fuel processor_16k
      [JsValue.buffer 8589934720, JsValue.buffer 8589934720] (fun _ => true) = some r := by
  refine ⟨by decide, by decide, ?_⟩
  rintro ⟨fuel, r, h⟩
  have hsess : processor_16k.m_ncSession ≠ none := by decide
  have hb : processor_16k.m_frameSizeInBytes = 320 := by decide
  have hloop := process_loop_runs_on processor_16k (8589934720 / 2) (fun _ => true)
    (by decide) (fun _ => rfl) fuel 0 [] (by decide)
  simp [processFrames, hsess, hb, hloop] at h

theorem process_loop_slices (p : KrispAudioProcessor) (k : Nat) (process_ok : Nat → Bool)
    (hn : k * p.m_frameSize < UINT_MODULUS) (hF : 0 < p.m_frameSize)
    (hok : ∀ i, process_ok i = true) :
    ∀ d j fuel calls, j + d = k → d < fuel →
      process_loop p (k * p.m_frameSize) process_ok fuel (j * p.m_frameSize) calls
        = some (JsResult.undefined,
            calls ++ (List.range' j d).map (fun i =>
              { offset := i * p.m_frameSize
                numInputSamples := p.m_frameSize
                numOutputSamples := p.m_frameSize
                level := p.m_noiseSuppressionLevel })) := by
  intro d
  induction d with
  | zero =>
    intro j fuel calls hj hfuel
    have hjk : j = k := by omega
    subst hjk
    cases fuel with
    | zero => omega
    | succ fuel => simp [process_loop]
  | succ d ih =>
    intro j fuel calls hj hfuel
    cases fuel with
    | zero => omega
    | succ fuel =>
      have hjk : j < k := by omega
      have hlt : j * p.m_frameSize < k * p.m_frameSize :=
        Nat.mul_lt_mul_of_pos_right hjk hF
      have hnext : (j * p.m_frameSize + p.m_frameSize) % UINT_MODULUS
          = (j + 1) * p.m_frameSize := by
        have h1 : (j + 1) * p.m_frameSize ≤ k * p.m_frameSize :=
          Nat.mul_le_mul_right _ (by omega)
        rw [Nat.succ_mul]
        apply Nat.mod_eq_of_lt
        rw [Nat.succ_mul] at h1
        omega
      simp only [process_loop, hlt, if_true, hok, hnext]
      rw [ih (j + 1) fuel _ (by omega) (by omega)]
      simp [List.range'_succ]

/-- C17 (amended). Frame slicing in `processFrames`. On a processor with an engine session
and frame size F > 0 (F = sampleRate x 10 / 1000 after `configure`: 80 for 8000 Hz, 160 for
16000 Hz), for every pair of buffers of n = k x F samples with k > 0 and n < 2^32, and an
engine that does not throw, the loop ends after exactly k engine calls, at the sample offsets
0, F, 2F, ..., each for F input and F output samples (any number of iterations above k is
enough). Every such range lies inside the buffers, and every sample index below n lies in
exactly one of them. -/
theorem process_frames_slices (sample_size : Nat) (p : KrispAudioProcessor) (k : Nat)
    (fuel : Nat) (process_ok : Nat → Bool)
    (hss : 0 < sample_size) (hsess : p.m_ncSession ≠ none) (hF : 0 < p.m_frameSize)
    (hbytes : p.m_frameSizeInBytes = p.m_frameSize * sample_size)
    (hk : 0 < k) (hn : k * p.m_frameSize < UINT_MODULUS)
    (hok : ∀ i, process_ok i = true) (hfuel : k < fuel) :
    processFrames sample_size fuel p
        [JsValue.buffer (k * p.m_frameSize * sample_size),
         JsValue.buffer (k * p.m_frameSize * sample_size)] process_ok
      = some (JsResult.undefined,
          (List.range k).map (fun i =>
            { offset := i * p.m_frameSize
              numInputSamples := p.m_frameSize
              numOutputSamples := p.m_frameSize
              level := p.m_noiseSuppressionLevel })) ∧
    ((List.range k).map (fun i => i * p.m_frameSize)).length = k ∧
    (∀ i, i < k → i * p.m_frameSize + p.m_frameSize ≤ k * p.m_frameSize) ∧
    (∀ x, x < k * p.m_frameSize →
      (x / p.m_frameSize < k ∧
        x / p.m_frameSize * p.m_frameSize ≤ x ∧
        x < x / p.m_frameSize * p.m_frameSize + p.m_frameSize) ∧
      ∀ i, i * p.m_frameSize ≤ x → x < i * p.m_frameSize + p.m_frameSize →
        i = x / p.m_frameSize) ∧
    (8000 * Fd10ms % UINT_MODULUS) / 1000 = 80 ∧
    (16000 * Fd10ms % UINT_MODULUS) / 1000 = 160 := by
  refine ⟨?_, by simp, ?_, ?_, by decide, by decide⟩
  · have hlen : ¬ k * p.m_frameSize * sample_size < p.m_frameSize * sample_size := by
      have : p.m_frameSize ≤ k * p.m_frameSize := Nat.le_mul_of_pos_left _ hk
      have := Nat.mul_le_mul_right sample_size this
      omega
    have hloop := process_loop_slices p k process_ok hn hF hok k 0 fuel [] (by omega) hfuel
    simp only [Nat.zero_mul, List.nil_append] at hloop
    simp only [processFrames, hsess, if_false, List.length_cons, List.length_nil,
      List.getD_cons_zero, List.getD_cons_succ, ne_eq, not_true_eq_false,
      Nat.mul_mod_left, hbytes, hlen, Nat.mul_div_cancel _ hss]
    rw [hloop, List.range_eq_range']
  · intro i hi
    have h1 : (i + 1) * p.m_frameSize ≤ k * p.m_frameSize :=
      Nat.mul_le_mul_right _ (by omega)
    rw [Nat.succ_mul] at h1
    exact h1
  · intro x hx
    refine ⟨⟨?_, ?_, ?_⟩, ?_⟩
    · exact (Nat.div_lt_iff_lt_mul hF).mpr hx
    · exact Nat.div_mul_le_self x _
    · exact Nat.lt_div_mul_add hF
    · intro i h1 h2
      exact (Nat.div_eq_of_lt_le h1 (by rw [Nat.succ_mul]; exact h2)).symm

/-- C17 (instance). Two frames of 160 samples on the 16-bit processor configured for
16 kHz: two engine calls, at sample offsets 0 and 160. -/
theorem process_frames_slices_witness :
    processFrames 2 3 processor_16k
        [JsValue.buffer (2 * processor_16k.m_frameSize * 2),
         JsValue.buffer (2 * processor_16k.m_frameSize * 2)] (fun _ => true)
      = some (JsResult.undefined,
          (List.range 2).map (fun i =>
            { offset := i * processor_16k.m_frameSize
              numInputSamples := processor_16k.m_frameSize
              numOutputSamples := processor_16k.m_frameSize
              level := processor_16k.m_noiseSuppressionLevel })) ∧
    processor_16k.m_frameSize = 160 :=
  ⟨(process_frames_slices 2 processor_16k 2 3 (fun _ => true) (by decide) (by decide)
      (by decide) (by decide) (by decide) (by decide) (fun _ => rfl) (by decide)).1,
    by decide⟩

/-- C18 (the code at the failing input). A 16-bit processor is configured for 16 kHz with
level 50. A second `configure` with level 150 reports the error "Noise suppression level must
be between 0 and 100", but line 108 has already stored 150 in `m_noiseSuppressionLevel`: the
state after the call differs from the state before, and the next `processFrames` passes 150
to the engine. A `configure` for 8000 Hz whose engine creation throws reports the error and
leaves the sample rate 8000 and the frame size 80 next to the session created for 16000 Hz. A
`configure` with two arguments reports an error and leaves the state as it was. -/
theorem configure_not_atomic :
    processor_16k =
      { m_krispSampleRate := 16000
        m_frameSize := 160
        m_ncSession := some
          { sampleRate := 16000, frameDuration := 10, modelPath := "model.kef" }
        m_noiseSuppressionLevel := 50
        m_frameSizeInBytes := 320 } ∧
    configure 2 processor_16k
        [JsValue.string "model.kef", JsValue.number 16000 16000, JsValue.number 150 150]
        CreateResult.ok
      = ({ processor_16k with m_noiseSuppressionLevel := 150 },
          JsResult.exception "Noise suppression level must be between 0 and 100") ∧
    (configure 2 processor_16k
        [JsValue.string "model.kef", JsValue.number 16000 16000, JsValue.number 150 150]
        CreateResult.ok).1 ≠ processor_16k ∧
    processFrames 2 2
        (configure 2 processor_16k
          [JsValue.string "model.kef", JsValue.number 16000 16000, JsValue.number 150 150]
          CreateResult.ok).1
        [JsValue.buffer 320, JsValue.buffer 320] (fun _ => true)
      = some (JsResult.undefined,
          [{ offset := 0, numInputSamples := 160, numOutputSamples := 160, level := 150 }]) ∧
    configure 2 processor_16k
        [JsValue.string "model.kef", JsValue.number 8000 8000, JsValue.number 50 50]
        (CreateResult.threw "Failed to load model")
      = ({ processor_16k with
            m_krispSampleRate := 8000
            m_frameSize := 80
            m_frameSizeInBytes := 160 },
          JsResult.exception "Failed to load model") ∧
    configure 2 processor_16k
        [JsValue.string "model.kef", JsValue.number 16000 16000]
        CreateResult.ok
      = (processor_16k, JsResult.exception
          "Expected 3 arguments: modelPath, sampleRate, and noiseSuppressionLevel") := by
  decide

end KrispApm
